import Mathlib

/-!
Verification of the CreditGuard risk-scoring code
(`src/utils/risk_calculator.py`, `src/plugins/market_research_plugin.py`,
`src/agents/credit_risk_agent.py`) against its natural-language specification.

Shallow embedding conventions:
* Python numbers are embedded as `ℚ` (scores, incomes, ratios) or `ℤ`
  (credit scores, which the data generator produces as integers).
* Python `datetime` values are embedded as `ℤ` day counts; `datetime.now()`
  becomes an explicit `now : ℤ` parameter.  An unparseable or missing date
  string is `none` (the Python code maps both to "not recent" via its
  `try/except` guard).
* A Python dict field read with `.get(k, default)` is embedded either as an
  `Option` (when present-vs-absent matters somewhere) or directly as the
  defaulted value.  A falsy dict (`None` or `{}`) is `none`.
* Python `set` iteration order is abstracted as first-insertion order.
* Python f-string number formatting (`:.1f`, `:,`) is abstracted by `toString`
  on `ℚ`; the formatted text is never branched on.
-/

namespace CreditGuard

/-- `chStarts needle hay`: `needle` is a leading segment of `hay`. -/
def chStarts : List Char → List Char → Bool
  | [], _ => true
  | a :: as, hay =>
    match hay with
    | [] => false
    | b :: bs => a == b && chStarts as bs

/-- `chHasSub needle hay`: `needle` occurs contiguously inside `hay`
(the semantics of Python's `needle in hay` on strings). -/
def chHasSub (needle : List Char) : List Char → Bool
  | [] => chStarts needle []
  | b :: bs => chStarts needle (b :: bs) || chHasSub needle bs

/-- Python `str.lower()` (embedded as a character-wise map so that it
evaluates in the kernel; identical to `String.toLower`). -/
def strToLower (s : String) : String :=
  (s.toList.map Char.toLower).asString

/-- Python `str.upper()` (character-wise, identical to `String.toUpper`). -/
def strToUpper (s : String) : String :=
  (s.toList.map Char.toUpper).asString

/-- Python `sub in s` for strings. -/
def strHasSub (s sub : String) : Bool :=
  chHasSub sub.toList s.toList

/-- `RiskLevel` enumeration from `risk_calculator.py`. -/
inductive RiskLevel
  | LOW
  | MEDIUM
  | HIGH
  | CRITICAL
deriving DecidableEq, Repr

/-- The `value` field of a `RiskFactor` (Python `Any`): the code stores
rationals, integers or strings there. -/
inductive FValue
  | num (q : ℚ)
  | intv (n : ℤ)
  | str (s : String)
deriving DecidableEq, Repr

/-- `RiskFactor` dataclass. -/
structure RiskFactor where
  factor_name : String
  factor_type : String
  severity : String
  weight : ℚ
  value : FValue
  description : String
  recommendation : String
deriving DecidableEq, Repr

/-- `RiskScoreBreakdown` dataclass.  An adjustment dict `{name: amount}` is a
pair. -/
structure RiskScoreBreakdown where
  base_score : ℚ
  credit_score_component : ℚ
  financial_component : ℚ
  behavioral_component : ℚ
  demographic_component : ℚ
  external_component : ℚ
  adjustments : List (String × ℚ)
  final_score : ℚ
deriving DecidableEq, Repr

/-- `RiskAssessment` dataclass.  `assessment_timestamp` is the clock value
(`datetime.now()`) at evaluation time. -/
structure RiskAssessment where
  overall_risk_score : ℚ
  risk_level : RiskLevel
  confidence_score : ℚ
  risk_factors : List RiskFactor
  score_breakdown : RiskScoreBreakdown
  recommendations : List String
  assessment_timestamp : ℤ
  model_version : String
deriving DecidableEq, Repr

/-- `customer_data['personalInfo']`.  `occupation = none` models a missing
key (the code defaults it to `'unknown'`, `''` or falsy depending on the
call site); `age` defaults to 30 when the key is absent, which the code's
branches treat identically to an explicit 30. -/
structure PersonalInfo where
  annualIncome : ℚ
  employmentYears : ℚ
  occupation : Option String
  age : ℚ
deriving DecidableEq, Repr

/-- `customer_data['financialProfile']`.  A missing profile or missing
`creditScore` key is read with default 0 everywhere, so it is embedded as
`creditScore = 0`. -/
structure FinancialProfile where
  creditScore : ℤ
  monthlyDebtPayments : ℚ
deriving DecidableEq, Repr

/-- `customer_data`.  `state` is `addressInfo.state` (default `''`). -/
structure CustomerData where
  customerId : String
  personalInfo : PersonalInfo
  financialProfile : FinancialProfile
  state : String
deriving DecidableEq, Repr

/-- `application_data` (only `requested_limit` is read, default 0). -/
structure ApplicationData where
  requested_limit : ℚ
deriving DecidableEq, Repr

/-- A credit-bureau inquiry record. -/
structure Inquiry where
  inquiry_type : String
  inquiry_date : Option ℤ
deriving DecidableEq, Repr

/-- A credit-bureau account record. -/
structure Account where
  opened_date : Option ℤ
  delinquencies : ℕ
deriving DecidableEq, Repr

/-- `bureau_data['account_summary']` (absent summary reads as
`payment_history = "UNKNOWN"`, `credit_utilization = 0`). -/
structure AccountSummary where
  payment_history : String
  credit_utilization : ℚ
deriving DecidableEq, Repr

/-- `bureau_data`.  The whole argument is `Option BureauData`: `none` models
both Python `None` and the falsy empty dict `{}`.  `credit_score = none`
models a present bureau record without the `'credit_score'` key. -/
structure BureauData where
  credit_score : Option ℤ
  account_summary : AccountSummary
  inquiries : List Inquiry
  accounts : List Account
deriving DecidableEq, Repr

/-- One `market_context` insight dict (the fields the calculator reads). -/
structure MarketInsight where
  severity : String
  summary : String
  confidence_level : ℚ
deriving DecidableEq, Repr

/-! ## Scoring weights and tables (`RiskCalculator.__init__`) -/

/-- `scoring_weights['credit_score']`. -/
def w_credit_score : ℚ := 0.35

/-- `scoring_weights['financial_stability']`. -/
def w_financial_stability : ℚ := 0.25

/-- `scoring_weights['behavioral_patterns']`. -/
def w_behavioral_patterns : ℚ := 0.20

/-- `scoring_weights['demographic_factors']`. -/
def w_demographic_factors : ℚ := 0.10

/-- `scoring_weights['external_factors']`. -/
def w_external_factors : ℚ := 0.10

/-- `self.market_factors['industry_risk_multipliers']`. -/
def industry_risk_multipliers : List (String × ℚ) :=
  [("hospitality", 1.4), ("retail", 1.2), ("technology", 0.9),
   ("healthcare", 0.8), ("government", 0.7), ("education", 0.8)]

/-- First-match lookup in `self.credit_score_bands` (the dict is iterated in
insertion order and the loop breaks at the first band containing the score;
no band matching falls through to the default `base_risk = 50`,
`multiplier = 1.0`).  Returns `(base_risk, multiplier)`. -/
def band_lookup (credit_score : ℤ) : ℚ × ℚ :=
  if 800 ≤ credit_score ∧ credit_score ≤ 850 then (5, 0.5)
  else if 750 ≤ credit_score ∧ credit_score ≤ 799 then (10, 0.7)
  else if 700 ≤ credit_score ∧ credit_score ≤ 749 then (20, 1.0)
  else if 650 ≤ credit_score ∧ credit_score ≤ 699 then (35, 1.3)
  else if 600 ≤ credit_score ∧ credit_score ≤ 649 then (50, 1.6)
  else if 550 ≤ credit_score ∧ credit_score ≤ 599 then (70, 2.0)
  else if 300 ≤ credit_score ∧ credit_score ≤ 549 then (85, 2.5)
  else (50, 1.0)

/-! ## Small helpers shared by the components -/

/-- Credit score resolution at the top of `_calculate_credit_score_component`:
prefer `bureau_data['credit_score']` when the bureau dict is truthy and has
the key, else fall back to `customer_data['financialProfile'].creditScore`
(default 0). -/
def resolved_credit_score (customer : CustomerData) (bureau : Option BureauData) : ℤ :=
  match bureau with
  | some b =>
    match b.credit_score with
    | some cs => cs
    | none => customer.financialProfile.creditScore
  | none => customer.financialProfile.creditScore

/-- `monthly_income = annual_income / 12 if annual_income > 0 else 0`. -/
def monthly_income_of (customer : CustomerData) : ℚ :=
  if 0 < customer.personalInfo.annualIncome then
    customer.personalInfo.annualIncome / 12
  else 0

/-- `dti_ratio = existing_debt / monthly_income if monthly_income > 0 else 1.0`
(the zero-income guard in `_calculate_financial_component`). -/
def dti_of (customer : CustomerData) : ℚ :=
  if 0 < monthly_income_of customer then
    customer.financialProfile.monthlyDebtPayments / monthly_income_of customer
  else 1

/-- `delinquency_rate = delinquent_accounts / total_accounts if
total_accounts > 0 else 0` from `_calculate_behavioral_component`. -/
def delinquency_rate (accounts : List Account) : ℚ :=
  let delinquent_accounts := (accounts.filter (fun a => 0 < a.delinquencies)).length
  if 0 < accounts.length then (delinquent_accounts : ℚ) / (accounts.length : ℚ) else 0

/-- `_is_recent_inquiry` / `_is_recent_account`: a date is recent when it is
on or after `now - months*30` days; a missing/unparseable date is not
recent. -/
def is_recent_date (d : Option ℤ) (now : ℤ) (months : ℤ) : Bool :=
  match d with
  | none => false
  | some dd => decide (now - months * 30 ≤ dd)

/-- `_is_first_time_customer`: profile credit score below 600 or equal to 0
(a missing score reads as 0). -/
def is_first_time_customer (customer : CustomerData) : Bool :=
  let credit_score := customer.financialProfile.creditScore
  decide (credit_score < 600) || decide (credit_score = 0)

/-- `_determine_risk_level`. -/
def determine_risk_level (risk_score : ℚ) : RiskLevel :=
  if 75 ≤ risk_score then .CRITICAL
  else if 50 ≤ risk_score then .HIGH
  else if 25 ≤ risk_score then .MEDIUM
  else .LOW

/-! ## The five scoring components -/

/-- `_calculate_credit_score_component`.  Returns
`(base_risk * multiplier, risk_factors)`; the bureau add-ons (payment
history, utilization) are added to `base_risk` before the band multiplier
is applied, exactly as in the source (`(base_risk + deltas) * multiplier`);
the factor list is the same append sequence. -/
def calculate_credit_score_component (customer : CustomerData)
    (bureau : Option BureauData) : ℚ × List RiskFactor :=
  let credit_score := resolved_credit_score customer bureau
  let base_risk := (band_lookup credit_score).1
  let multiplier := (band_lookup credit_score).2
  let sev : String :=
    if credit_score < 650 then "HIGH"
    else if credit_score < 700 then "MEDIUM"
    else "LOW"
  let desc : String :=
    if credit_score < 650 then
      "Credit score of " ++ toString credit_score ++ " indicates elevated credit risk"
    else if credit_score < 700 then
      "Credit score of " ++ toString credit_score ++ " indicates moderate credit risk"
    else
      "Credit score of " ++ toString credit_score ++ " indicates low credit risk"
  let recm : String :=
    if credit_score < 650 then "Consider secured credit products or co-signer requirements"
    else if credit_score < 700 then "Standard underwriting with close monitoring"
    else "Eligible for premium credit products"
  let credit_risk_factor : RiskFactor :=
    { factor_name := "credit_score", factor_type := "FINANCIAL", severity := sev,
      weight := w_credit_score, value := .intv credit_score,
      description := desc, recommendation := recm }
  match bureau with
  | none => (base_risk * multiplier, [credit_risk_factor])
  | some b =>
    let payment_history := b.account_summary.payment_history
    let payment_delta : ℚ :=
      if payment_history == "POOR" then 10
      else if payment_history == "FAIR" then 5
      else 0
    let payment_factors : List RiskFactor :=
      if payment_history == "POOR" || payment_history == "FAIR" then
        [{ factor_name := "payment_history", factor_type := "BEHAVIORAL",
           severity := if payment_history == "POOR" then "HIGH" else "MEDIUM",
           weight := 0.15, value := .str payment_history,
           description := "Payment history rated as " ++ strToLower payment_history,
           recommendation := "Require additional verification or monitoring" }]
      else []
    let utilization := b.account_summary.credit_utilization
    let util_delta : ℚ := if utilization > 0.80 then 8 else 0
    let util_factors : List RiskFactor :=
      if utilization > 0.80 then
        [{ factor_name := "high_credit_utilization", factor_type := "BEHAVIORAL",
           severity := "HIGH", weight := 0.10, value := .num utilization,
           description := "High credit utilization at " ++ toString (utilization * 100) ++ "%",
           recommendation := "Monitor spending patterns closely" }]
      else []
    ((base_risk + payment_delta + util_delta) * multiplier,
     [credit_risk_factor] ++ payment_factors ++ util_factors)

/-- `_calculate_financial_component`.  `application_data` is accepted but,
as in the source, never read.  The sequential `base_score` updates of the
source are grouped as one delta per branch (DTI, income, employment) with
the industry multiplier applied last, exactly as the source's order of
operations `((30 ± dti ± income ± employment) * multiplier)`; the factor
list is the same append sequence. -/
def calculate_financial_component (customer : CustomerData)
    (_app : ApplicationData) : ℚ × List RiskFactor :=
  let annual_income := customer.personalInfo.annualIncome
  let employment_years := customer.personalInfo.employmentYears
  let occupation := customer.personalInfo.occupation.getD "unknown"
  let dtiv := dti_of customer
  let dti_sev : String :=
    if dtiv > 0.50 then "HIGH"
    else if dtiv > 0.40 then "MEDIUM"
    else "LOW"
  let dti_desc : String :=
    if dtiv > 0.50 then "High debt-to-income ratio at " ++ toString (dtiv * 100) ++ "%"
    else if dtiv > 0.40 then "Elevated debt-to-income ratio at " ++ toString (dtiv * 100) ++ "%"
    else if dtiv > 0.30 then "Acceptable debt-to-income ratio at " ++ toString (dtiv * 100) ++ "%"
    else "Excellent debt-to-income ratio at " ++ toString (dtiv * 100) ++ "%"
  let dti_rec : String :=
    if dtiv > 0.50 then "Require debt consolidation or co-signer"
    else if dtiv > 0.40 then "Lower credit limits and close monitoring"
    else if dtiv > 0.30 then "Standard underwriting acceptable"
    else "Qualified for premium products"
  let dti_factor : RiskFactor :=
    { factor_name := "debt_to_income_ratio", factor_type := "FINANCIAL",
      severity := dti_sev, weight := 0.20, value := .num dtiv,
      description := dti_desc, recommendation := dti_rec }
  let dti_delta : ℚ :=
    if dtiv > 0.50 then 20
    else if dtiv > 0.40 then 10
    else if dtiv > 0.30 then -5
    else -15
  let income_delta : ℚ :=
    if annual_income < 25000 then 15
    else if annual_income < 40000 then 5
    else 0
  let income_factors : List RiskFactor :=
    if annual_income < 25000 then
      [{ factor_name := "low_income", factor_type := "FINANCIAL", severity := "HIGH",
         weight := 0.15, value := .num annual_income,
         description := "Low annual income of $" ++ toString annual_income,
         recommendation := "Consider secured products or lower limits" }]
    else if annual_income < 40000 then
      [{ factor_name := "moderate_income", factor_type := "FINANCIAL", severity := "MEDIUM",
         weight := 0.10, value := .num annual_income,
         description := "Moderate annual income of $" ++ toString annual_income,
         recommendation := "Standard underwriting with income verification" }]
    else []
  let employment_delta : ℚ :=
    if employment_years < 1 then 10
    else if employment_years < 2 then 5
    else 0
  let employment_factors : List RiskFactor :=
    if employment_years < 1 then
      [{ factor_name := "short_employment", factor_type := "FINANCIAL", severity := "HIGH",
         weight := 0.10, value := .num employment_years,
         description := "Short employment history: " ++ toString employment_years ++ " years",
         recommendation := "Require additional income verification" }]
    else if employment_years < 2 then
      [{ factor_name := "recent_employment", factor_type := "FINANCIAL", severity := "MEDIUM",
         weight := 0.08, value := .num employment_years,
         description := "Recent employment history: " ++ toString employment_years ++ " years",
         recommendation := "Monitor for income stability" }]
    else []
  let occ_mult : ℚ :=
    match industry_risk_multipliers.lookup (strToLower occupation) with
    | some m => if 1 < m then m else 1
    | none => 1
  let occ_factors : List RiskFactor :=
    match industry_risk_multipliers.lookup (strToLower occupation) with
    | some m =>
      if 1 < m then
        [{ factor_name := "high_risk_occupation", factor_type := "DEMOGRAPHIC",
           severity := "MEDIUM", weight := 0.08, value := .str occupation,
           description := "Higher risk occupation: " ++ occupation,
           recommendation := "Consider industry-specific risk factors" }]
      else []
    | none => []
  let base_score := (30 + dti_delta + income_delta + employment_delta) * occ_mult
  (min 100 (max 0 base_score),
   [dti_factor] ++ income_factors ++ employment_factors ++ occ_factors)

/-- `_calculate_behavioral_component`.  `now : ℤ` is the clock read by the
recency helpers.  A falsy bureau dict short-circuits to the flat default
`(25, [])`. -/
def calculate_behavioral_component (_customer : CustomerData)
    (bureau : Option BureauData) (now : ℤ) : ℚ × List RiskFactor :=
  match bureau with
  | none => (25, [])
  | some b =>
    let recent_hard_inquiries :=
      (b.inquiries.filter
        (fun i => i.inquiry_type == "HARD" && is_recent_date i.inquiry_date now 6)).length
    let p1 : ℚ × List RiskFactor :=
      if 5 < recent_hard_inquiries then
        (25 + 20,
         [{ factor_name := "excessive_credit_inquiries", factor_type := "BEHAVIORAL",
            severity := "HIGH", weight := 0.15, value := .intv recent_hard_inquiries,
            description := toString recent_hard_inquiries ++ " hard inquiries in past 6 months",
            recommendation := "Investigate credit-seeking behavior" }])
      else if 2 < recent_hard_inquiries then
        (25 + 10,
         [{ factor_name := "multiple_credit_inquiries", factor_type := "BEHAVIORAL",
            severity := "MEDIUM", weight := 0.10, value := .intv recent_hard_inquiries,
            description := toString recent_hard_inquiries ++ " hard inquiries in past 6 months",
            recommendation := "Monitor credit application patterns" }])
      else (25, [])
    let recent_accounts :=
      (b.accounts.filter (fun a => is_recent_date a.opened_date now 12)).length
    let p2 : ℚ × List RiskFactor :=
      if 3 < recent_accounts then
        (p1.1 + 15, p1.2 ++
          [{ factor_name := "rapid_account_opening", factor_type := "BEHAVIORAL",
             severity := "HIGH", weight := 0.12, value := .intv recent_accounts,
             description := toString recent_accounts ++ " new accounts opened in past 12 months",
             recommendation := "Investigate potential credit abuse" }])
      else p1
    let delinquent_accounts := (b.accounts.filter (fun a => 0 < a.delinquencies)).length
    let p3 : ℚ × List RiskFactor :=
      if 0 < delinquent_accounts then
        let rate := delinquency_rate b.accounts
        let sev : String :=
          if rate > 0.3 then "CRITICAL" else if rate > 0.15 then "HIGH" else "MEDIUM"
        let add : ℚ := if rate > 0.3 then 25 else if rate > 0.15 then 15 else 8
        (p2.1 + add, p2.2 ++
          [{ factor_name := "payment_delinquencies", factor_type := "BEHAVIORAL",
             severity := sev, weight := 0.18, value := .num rate,
             description := toString delinquent_accounts ++
               " accounts with delinquencies (" ++ toString (rate * 100) ++ "%)",
             recommendation := "Implement enhanced payment monitoring" }])
      else p2
    let utilization := b.account_summary.credit_utilization
    let p4 : ℚ × List RiskFactor :=
      if utilization > 0.80 then
        (p3.1 + 12, p3.2 ++
          [{ factor_name := "high_utilization_pattern", factor_type := "BEHAVIORAL",
             severity := "HIGH", weight := 0.12, value := .num utilization,
             description := "High credit utilization at " ++ toString (utilization * 100) ++ "%",
             recommendation := "Monitor spending patterns and consider lower limits" }])
      else if utilization > 0.5 then
        (p3.1 + 6, p3.2 ++
          [{ factor_name := "elevated_utilization", factor_type := "BEHAVIORAL",
             severity := "MEDIUM", weight := 0.08, value := .num utilization,
             description := "Elevated credit utilization at " ++ toString (utilization * 100) ++ "%",
             recommendation := "Encourage utilization management" }])
      else p3
    (min 100 (max 0 p4.1), p4.2)

/-- `_calculate_demographic_component`.  The sequential `base_score` updates
are grouped as one delta per branch (age, geography), matching the source's
`20 + age-delta + state-delta` accumulation and factor append order. -/
def calculate_demographic_component (customer : CustomerData) : ℚ × List RiskFactor :=
  let age := customer.personalInfo.age
  let age_delta : ℚ :=
    if age < 21 then 10
    else if age < 25 then 5
    else if age > 70 then 3
    else 0
  let age_factors : List RiskFactor :=
    if age < 21 then
      [{ factor_name := "young_age", factor_type := "DEMOGRAPHIC", severity := "MEDIUM",
         weight := 0.08, value := .num age,
         description := "Young age of " ++ toString age ++ " years indicates limited credit history",
         recommendation := "Consider secured products or parental co-signer" }]
    else if age < 25 then
      [{ factor_name := "early_career_age", factor_type := "DEMOGRAPHIC", severity := "LOW",
         weight := 0.05, value := .num age,
         description := "Age " ++ toString age ++ " indicates early career stage",
         recommendation := "Standard underwriting with income verification" }]
    else if age > 70 then
      [{ factor_name := "senior_age", factor_type := "DEMOGRAPHIC", severity := "LOW",
         weight := 0.05, value := .num age,
         description := "Senior age of " ++ toString age ++ " years",
         recommendation := "Verify income stability and retirement planning" }]
    else []
  let state := strToUpper customer.state
  let state_delta : ℚ :=
    if state == "NV" || state == "FL" || state == "AZ" then 8 else 0
  let state_factors : List RiskFactor :=
    if state == "NV" || state == "FL" || state == "AZ" then
      [{ factor_name := "high_risk_geography", factor_type := "DEMOGRAPHIC",
         severity := "MEDIUM", weight := 0.06, value := .str state,
         description := "Location in higher-risk state: " ++ state,
         recommendation := "Apply regional risk adjustments" }]
    else []
  (min 100 (max 0 (20 + age_delta + state_delta)), age_factors ++ state_factors)

/-- One step of the market-insight loop in `_calculate_external_component`. -/
def external_insight_step (acc : ℚ × List RiskFactor) (insight : MarketInsight) :
    ℚ × List RiskFactor :=
  if insight.severity == "HIGH" || insight.severity == "CRITICAL" then
    if strHasSub (strToLower insight.summary) "fraud" then
      (acc.1 + 15, acc.2 ++
        [{ factor_name := "market_fraud_trend", factor_type := "EXTERNAL",
           severity := "HIGH", weight := 0.12, value := .num insight.confidence_level,
           description := "Market fraud trend: " ++ insight.summary.take 100,
           recommendation := "Implement enhanced fraud monitoring" }])
    else if strHasSub (strToLower insight.summary) "economic" then
      (acc.1 + 10, acc.2 ++
        [{ factor_name := "economic_headwinds", factor_type := "EXTERNAL",
           severity := "MEDIUM", weight := 0.08, value := .num insight.confidence_level,
           description := "Economic risk factor: " ++ insight.summary.take 100,
           recommendation := "Apply conservative underwriting" }])
    else acc
  else acc

/-- `_calculate_external_component`.  An empty (falsy) `market_context`
short-circuits to the flat default `(15, [])`. -/
def calculate_external_component (customer : CustomerData)
    (market_context : List MarketInsight) : ℚ × List RiskFactor :=
  match market_context with
  | [] => (15, [])
  | i :: is =>
    let p1 := ((i :: is).take 5).foldl external_insight_step (15, [])
    let occupation := strToLower (customer.personalInfo.occupation.getD "")
    let p2 : ℚ × List RiskFactor :=
      if strHasSub occupation "hospitality" || strHasSub occupation "restaurant" ||
          strHasSub occupation "tourism" then
        (p1.1 + 12, p1.2 ++
          [{ factor_name := "volatile_industry", factor_type := "EXTERNAL",
             severity := "MEDIUM", weight := 0.10, value := .str occupation,
             description := "Employment in volatile industry: " ++ occupation,
             recommendation := "Monitor employment stability closely" }])
      else p1
    (min 100 (max 0 p2.1), p2.2)

/-! ## Adjustments, confidence, recommendations, assembly -/

/-- `_apply_risk_adjustments`.  Returns `(final_score, adjustments)`. -/
def apply_risk_adjustments (base_score : ℚ) (risk_factors : List RiskFactor)
    (customer : CustomerData) (app : ApplicationData) : ℚ × List (String × ℚ) :=
  let p1 : ℚ × List (String × ℚ) :=
    if is_first_time_customer customer then
      (base_score + base_score * 0.1, [("first_time_customer", base_score * 0.1)])
    else (base_score, [])
  let annual_income := customer.personalInfo.annualIncome
  let p2 : ℚ × List (String × ℚ) :=
    if 0 < annual_income ∧ app.requested_limit / annual_income > 0.5 then
      (p1.1 + base_score * 0.15, p1.2 ++ [("high_limit_request", base_score * 0.15)])
    else p1
  let high_severity_count := (risk_factors.filter (fun rf => rf.severity == "HIGH")).length
  let critical_severity_count :=
    (risk_factors.filter (fun rf => rf.severity == "CRITICAL")).length
  let p3 : ℚ × List (String × ℚ) :=
    if 0 < critical_severity_count then
      (p2.1 + base_score * 0.25 * critical_severity_count,
       p2.2 ++ [("critical_risk_factors", base_score * 0.25 * critical_severity_count)])
    else if 2 < high_severity_count then
      (p2.1 + base_score * 0.12 * ((high_severity_count : ℚ) - 2),
       p2.2 ++ [("multiple_high_risks", base_score * 0.12 * ((high_severity_count : ℚ) - 2))])
    else p2
  (min 100 (max 0 p3.1), p3.2)

/-- Truthiness of the `occupation` field as read by
`_calculate_confidence_score` (`None` or `''` is falsy). -/
def occupation_falsy (customer : CustomerData) : Bool :=
  match customer.personalInfo.occupation with
  | none => true
  | some s => s == ""

/-- `_calculate_confidence_score`. -/
def calculate_confidence_score (customer : CustomerData) (bureau : Option BureauData)
    (risk_factors : List RiskFactor) : ℚ :=
  let c1 : ℚ := if 0 < customer.personalInfo.annualIncome then 0.5 + 0.1 else 0.5
  let c2 : ℚ := if 0 < customer.personalInfo.employmentYears then c1 + 0.1 else c1
  let c3 : ℚ :=
    match bureau with
    | none => c2
    | some b =>
      let d1 := c2 + 0.2
      let d2 := if b.accounts.isEmpty then d1 else d1 + 0.1
      if 0 < b.credit_score.getD 0 then d2 + 0.1 else d2
  let c4 : ℚ := if occupation_falsy customer then c3 - 0.05 else c3
  let critical_count := (risk_factors.filter (fun rf => rf.severity == "CRITICAL")).length
  let c5 : ℚ := if 0 < critical_count then c4 + 0.05 * critical_count else c4
  min 1 (max 0.1 c5)

/-- The dedup step of `_generate_risk_recommendations` (a Python `set`
abstracted as first-insertion order). -/
def insert_unique (acc : List String) (r : String) : List String :=
  if r != "" && !(acc.contains r) then acc ++ [r] else acc

/-- `_generate_risk_recommendations`. -/
def generate_risk_recommendations (risk_factors : List RiskFactor)
    (risk_level : RiskLevel) : List String :=
  let level_recs : List String :=
    match risk_level with
    | .CRITICAL =>
      ["Strongly recommend denial of credit application",
       "If approved, implement maximum monitoring and lowest possible limits",
       "Require co-signer or secured collateral",
       "Manual review required for any credit decisions"]
    | .HIGH =>
      ["Consider denial or approve with strict conditions",
       "Implement enhanced monitoring and fraud detection",
       "Lower credit limits significantly below requested amount",
       "Require additional income verification"]
    | .MEDIUM =>
      ["Approve with standard to conservative terms",
       "Implement regular account monitoring",
       "Consider graduated credit limit increases based on performance"]
    | .LOW =>
      ["Eligible for standard or premium credit products",
       "Consider competitive rates and higher credit limits",
       "Good candidate for relationship banking products"]
  let factor_recs :=
    (risk_factors.map (fun f => f.recommendation)).foldl insert_unique []
  level_recs ++ factor_recs.take 5

/-- The `risk_factors` list accumulated by `calculate_comprehensive_risk`
(extension order: credit, financial, behavioral, demographic, external). -/
def pipeline_risk_factors (customer : CustomerData) (app : ApplicationData)
    (bureau : Option BureauData) (market_context : List MarketInsight)
    (now : ℤ) : List RiskFactor :=
  (calculate_credit_score_component customer bureau).2 ++
  (calculate_financial_component customer app).2 ++
  (calculate_behavioral_component customer bureau now).2 ++
  (calculate_demographic_component customer).2 ++
  (calculate_external_component customer market_context).2

/-- The `base_score` of `calculate_comprehensive_risk`: the weighted sum of
the five component scores. -/
def pipeline_base_score (customer : CustomerData) (app : ApplicationData)
    (bureau : Option BureauData) (market_context : List MarketInsight)
    (now : ℤ) : ℚ :=
  (calculate_credit_score_component customer bureau).1 * w_credit_score +
  (calculate_financial_component customer app).1 * w_financial_stability +
  (calculate_behavioral_component customer bureau now).1 * w_behavioral_patterns +
  (calculate_demographic_component customer).1 * w_demographic_factors +
  (calculate_external_component customer market_context).1 * w_external_factors

/-- The `(final_score, adjustments)` pair of `calculate_comprehensive_risk`. -/
def pipeline_adjusted (customer : CustomerData) (app : ApplicationData)
    (bureau : Option BureauData) (market_context : List MarketInsight)
    (now : ℤ) : ℚ × List (String × ℚ) :=
  apply_risk_adjustments (pipeline_base_score customer app bureau market_context now)
    (pipeline_risk_factors customer app bureau market_context now) customer app

/-- `calculate_comprehensive_risk`: the full scoring pipeline.  `now : ℤ` is
the value of `datetime.now()` during the call (it feeds the recency checks
and the timestamp field).  The method's local variables are the
`pipeline_*` definitions above. -/
def calculate_comprehensive_risk (customer : CustomerData) (app : ApplicationData)
    (bureau : Option BureauData) (market_context : List MarketInsight)
    (now : ℤ) : RiskAssessment :=
  { overall_risk_score := (pipeline_adjusted customer app bureau market_context now).1
    risk_level := determine_risk_level (pipeline_adjusted customer app bureau market_context now).1
    confidence_score := calculate_confidence_score customer bureau
      (pipeline_risk_factors customer app bureau market_context now)
    risk_factors := pipeline_risk_factors customer app bureau market_context now
    score_breakdown :=
      { base_score := pipeline_base_score customer app bureau market_context now
        credit_score_component := (calculate_credit_score_component customer bureau).1
        financial_component := (calculate_financial_component customer app).1
        behavioral_component := (calculate_behavioral_component customer bureau now).1
        demographic_component := (calculate_demographic_component customer).1
        external_component := (calculate_external_component customer market_context).1
        adjustments := (pipeline_adjusted customer app bureau market_context now).2
        final_score := (pipeline_adjusted customer app bureau market_context now).1 }
    recommendations := generate_risk_recommendations
      (pipeline_risk_factors customer app bureau market_context now)
      (determine_risk_level (pipeline_adjusted customer app bureau market_context now).1)
    assessment_timestamp := now
    model_version := "1.0.0" }

/-! ## Market research plugin (`market_research_plugin.py`) -/

/-- `NewsArticle` dataclass. -/
structure NewsArticle where
  title : String
  url : String
  description : String
  published_date : String
  source : String
  relevance_score : ℚ
  sentiment : String
  key_insights : List String
deriving DecidableEq, Repr

/-- `FraudTrend` dataclass. -/
structure FraudTrend where
  trend_type : String
  severity : String
  affected_demographics : List String
  prevention_strategies : List String
  impact_description : String
  data_sources : List String
  confidence_level : ℚ
deriving DecidableEq, Repr

/-- The `fraud_keywords` table of `_identify_fraud_trends`, in dict insertion
order. -/
def fraud_keywords : List (String × List String) :=
  [("credit_card_skimming", ["skimming", "card reader", "ATM fraud", "point of sale"]),
   ("identity_theft", ["identity theft", "social security", "personal information", "data breach"]),
   ("synthetic_fraud", ["synthetic identity", "fake identity", "identity creation"]),
   ("account_takeover", ["account takeover", "credential stuffing", "password breach"]),
   ("online_fraud", ["online fraud", "e-commerce fraud", "digital fraud", "phishing"])]

/-- `content = (article.title + ' ' + article.description).lower()`. -/
def article_content (a : NewsArticle) : String :=
  strToLower (a.title ++ " " ++ a.description)

/-- An article matches a category when at least one (lowered) keyword occurs
in its content (`matches > 0` in the source). -/
def article_matches (keywords : List String) (a : NewsArticle) : Bool :=
  keywords.any (fun k => strHasSub (article_content a) (strToLower k))

/-- The per-article severity indicator of `_identify_fraud_trends`. -/
def severity_indicator (a : NewsArticle) : String :=
  let content := article_content a
  if ["surge", "increase", "rising", "epidemic"].any (fun w => strHasSub content w) then
    "HIGH"
  else if ["concern", "alert", "warning"].any (fun w => strHasSub content w) then
    "MEDIUM"
  else "LOW"

/-- The severity-count vote over the matching articles: two or more HIGH
indicators give HIGH, else two or more MEDIUM give MEDIUM, else LOW. -/
def overall_severity (indicators : List String) : String :=
  if 2 ≤ (indicators.filter (fun s => s == "HIGH")).length then "HIGH"
  else if 2 ≤ (indicators.filter (fun s => s == "MEDIUM")).length then "MEDIUM"
  else "LOW"

/-- Keep-first deduplication, the abstraction of Python `list(set(...))`
used by the extraction helpers. -/
def dedup_strings (l : List String) : List String :=
  l.foldl (fun acc s => if acc.contains s then acc else acc ++ [s]) []

/-- The alternation words of the `demo_patterns` regexes in
`_extract_demographics`. -/
def demo_words : List String :=
  ["young", "elderly", "senior", "millennial", "gen z", "boomer",
   "high income", "low income", "middle class",
   "urban", "rural", "suburban",
   "small business", "enterprise", "consumer"]

/-- `_extract_demographics`: collect the demographic words occurring in the
articles, dedup (`list(set(...))`, order abstracted as first occurrence),
keep at most 5. -/
def extract_demographics (articles : List NewsArticle) : List String :=
  let found := articles.foldl
    (fun acc a =>
      let content := article_content a
      demo_words.foldl
        (fun acc2 w =>
          if strHasSub content w && !(acc2.contains w) then acc2 ++ [w] else acc2)
        acc)
    []
  found.take 5

/-- `_extract_prevention_strategies`: a constant list truncated to 3. -/
def extract_prevention_strategies (_articles : List NewsArticle) : List String :=
  (["Enhanced identity verification procedures",
    "Real-time transaction monitoring",
    "Multi-factor authentication implementation",
    "Regular security awareness training",
    "Advanced fraud detection algorithms"]).take 3

/-- `_summarize_trend_impact`. -/
def summarize_trend_impact (articles : List NewsArticle) : String :=
  let step := fun (acc : List String) (a : NewsArticle) =>
    let content := strToLower (a.title ++ " " ++ a.description)
    let acc1 :=
      if ["million", "billion", "widespread"].any (fun w => strHasSub content w) then
        acc ++ ["significant financial impact"]
      else acc
    let acc2 :=
      if ["consumer", "customer", "victim"].any (fun w => strHasSub content w) then
        acc1 ++ ["consumer impact"]
      else acc1
    if ["bank", "financial institution"].any (fun w => strHasSub content w) then
      acc2 ++ ["institutional impact"]
    else acc2
  let impact_keywords := articles.foldl step []
  if impact_keywords.isEmpty then
    "Emerging trend requiring monitoring and assessment"
  else
    "Trend shows " ++ String.intercalate ", " (dedup_strings impact_keywords) ++
      " based on recent reports"

/-- The `FraudTrend` record constructed in `_identify_fraud_trends` for a
category `p` whose matching articles are non-empty. -/
def trend_of (articles : List NewsArticle) (p : String × List String) : FraudTrend :=
  let matching := articles.filter (article_matches p.2)
  { trend_type := p.1
    severity := overall_severity (matching.map severity_indicator)
    affected_demographics := extract_demographics matching
    prevention_strategies := extract_prevention_strategies matching
    impact_description := summarize_trend_impact matching
    data_sources := matching.map (fun a => a.source)
    confidence_level := min 0.9 ((matching.length : ℚ) * 0.15) }

/-- `_identify_fraud_trends`: for every keyword category (in table order), a
trend is emitted when at least one article matches; its confidence is
`min(0.9, matching_count * 0.15)`. -/
def identify_fraud_trends (articles : List NewsArticle) : List FraudTrend :=
  fraud_keywords.foldl
    (fun trends p =>
      if (articles.filter (article_matches p.2)).isEmpty then trends
      else trends ++ [trend_of articles p])
    []

/-! ## Credit risk agent error flow (`credit_risk_agent.py`) -/

/-- The fields `evaluate_credit_risk` extracts from the Reasoner (Azure
OpenAI) JSON reply of `_perform_ai_risk_analysis`.  A `risk_factors` entry
dict is embedded as (factor, severity, description). -/
structure ReasonerAnalysis where
  risk_score : ℚ
  risk_level : String
  risk_factors : List (String × String × String)
  compliance_notes : List String
  recommendation : String
  confidence_score : ℚ
deriving DecidableEq, Repr

/-- `RiskEvaluation` dataclass of the agent. -/
structure RiskEvaluation where
  customer_id : String
  overall_risk_score : ℚ
  risk_level : String
  risk_factors : List (String × String × String)
  market_insights : List MarketInsight
  compliance_notes : List String
  recommendation : String
  confidence_score : ℚ
  evaluation_timestamp : ℤ
deriving DecidableEq, Repr

/-- `_perform_ai_risk_analysis`: builds a prompt, awaits the external model
call and `json.loads` the reply.  The external outcome is the `reasoner`
argument (`Except.error` for a raised exception or unparseable reply).  The
method body contains no `try/except`, so an error outcome propagates
unchanged to the caller. -/
def perform_ai_risk_analysis (reasoner : Except String ReasonerAnalysis) :
    Except String ReasonerAnalysis :=
  reasoner

/-- `evaluate_credit_risk` (steps 4, 5 and 7, and the outer `except`
handler): the numeric assessment `risk_score_data` is computed first, then
the Reasoner is consulted; an exception from the Reasoner reaches the outer
handler, which logs it and re-raises (`raise`), so the method's caller sees
the error and no evaluation.  On success, the returned evaluation's score,
level, factors, notes, recommendation and confidence all come from the
Reasoner reply `risk_analysis`, not from `risk_score_data`. -/
def evaluate_credit_risk (customer : CustomerData) (app : ApplicationData)
    (bureau : Option BureauData) (market : List MarketInsight) (now : ℤ)
    (reasoner : Except String ReasonerAnalysis) : Except String RiskEvaluation :=
  let _risk_score_data := calculate_comprehensive_risk customer app bureau market now
  match perform_ai_risk_analysis reasoner with
  | .error e => .error e
  | .ok risk_analysis =>
    .ok { customer_id := customer.customerId
          overall_risk_score := risk_analysis.risk_score
          risk_level := risk_analysis.risk_level
          risk_factors := risk_analysis.risk_factors
          market_insights := market.take 3
          compliance_notes := risk_analysis.compliance_notes
          recommendation := risk_analysis.recommendation
          confidence_score := risk_analysis.confidence_score
          evaluation_timestamp := now }

/-! ## Concrete inputs used by witnesses and counterexamples -/

/-- A plain mid-risk customer: no branch of the financial, demographic or
external components fires. -/
def customer_base : CustomerData :=
  { customerId := "CUST-001"
    personalInfo := { annualIncome := 50000, employmentYears := 5,
                      occupation := some "engineer", age := 30 }
    financialProfile := { creditScore := 700, monthlyDebtPayments := 1000 }
    state := "CA" }

/-- `customer_base` with the profile credit score replaced. -/
def customer_with_score (s : ℤ) : CustomerData :=
  { customer_base with
    financialProfile := { customer_base.financialProfile with creditScore := s } }

/-- A modest application: requested limit well below half the income. -/
def app_base : ApplicationData := { requested_limit := 10000 }

/-- A zero-income customer (for the division guards of C3). -/
def customer_zero_income : CustomerData :=
  { customer_base with
    personalInfo := { customer_base.personalInfo with annualIncome := 0 } }

/-- A bureau record with three hard inquiries on day 0 (for the clock
dependence of C7). -/
def bureau_inquiries : BureauData :=
  { credit_score := some 700
    account_summary := { payment_history := "UNKNOWN", credit_utilization := 0 }
    inquiries := [⟨"HARD", some 0⟩, ⟨"HARD", some 0⟩, ⟨"HARD", some 0⟩]
    accounts := [] }

/-- A clean bureau record carrying a good (700) bureau score (for C4). -/
def bureau_clean : BureauData :=
  { credit_score := some 700
    account_summary := { payment_history := "UNKNOWN", credit_utilization := 0 }
    inquiries := []
    accounts := [] }

/-- A bureau record in the worst credit band with poor payment history and
high utilization (for C10). -/
def bureau_poor : BureauData :=
  { credit_score := some 500
    account_summary := { payment_history := "POOR", credit_utilization := 0.9 }
    inquiries := []
    accounts := [] }

/-! ## Shared helper lemmas -/

/-- The clamp `min(100, max(0, x))` stays in `[0, 100]`. -/
theorem clamp100_bounds (x : ℚ) : 0 ≤ min 100 (max 0 x) ∧ min 100 (max 0 x) ≤ 100 :=
  ⟨le_min (by norm_num) (le_max_left 0 x), min_le_left 100 _⟩

/-- The financial component is clamped to `[0, 100]`. -/
theorem financial_component_bounds (customer : CustomerData) (app : ApplicationData) :
    0 ≤ (calculate_financial_component customer app).1 ∧
    (calculate_financial_component customer app).1 ≤ 100 := by
  unfold calculate_financial_component
  exact clamp100_bounds _

/-- The behavioral component is in `[0, 100]` (flat 25 without a bureau,
clamped otherwise). -/
theorem behavioral_component_bounds (customer : CustomerData)
    (bureau : Option BureauData) (now : ℤ) :
    0 ≤ (calculate_behavioral_component customer bureau now).1 ∧
    (calculate_behavioral_component customer bureau now).1 ≤ 100 := by
  cases bureau with
  | none => exact ⟨by norm_num [calculate_behavioral_component],
      by norm_num [calculate_behavioral_component]⟩
  | some b =>
    unfold calculate_behavioral_component
    exact clamp100_bounds _

/-- The demographic component is clamped to `[0, 100]`. -/
theorem demographic_component_bounds (customer : CustomerData) :
    0 ≤ (calculate_demographic_component customer).1 ∧
    (calculate_demographic_component customer).1 ≤ 100 := by
  unfold calculate_demographic_component
  exact clamp100_bounds _

/-- The external component is in `[0, 100]` (flat 15 without market context,
clamped otherwise). -/
theorem external_component_bounds (customer : CustomerData)
    (market : List MarketInsight) :
    0 ≤ (calculate_external_component customer market).1 ∧
    (calculate_external_component customer market).1 ≤ 100 := by
  cases market with
  | nil => exact ⟨by norm_num [calculate_external_component],
      by norm_num [calculate_external_component]⟩
  | cons i is =>
    unfold calculate_external_component
    exact clamp100_bounds _

/-- The adjusted final score is clamped to `[0, 100]`. -/
theorem apply_risk_adjustments_bounds (base : ℚ) (factors : List RiskFactor)
    (customer : CustomerData) (app : ApplicationData) :
    0 ≤ (apply_risk_adjustments base factors customer app).1 ∧
    (apply_risk_adjustments base factors customer app).1 ≤ 100 := by
  unfold apply_risk_adjustments
  exact clamp100_bounds _

/-- The confidence score is clamped to `[0.1, 1]`. -/
theorem confidence_score_bounds (customer : CustomerData) (bureau : Option BureauData)
    (factors : List RiskFactor) :
    0.1 ≤ calculate_confidence_score customer bureau factors ∧
    calculate_confidence_score customer bureau factors ≤ 1 := by
  unfold calculate_confidence_score
  exact ⟨le_min (by norm_num) (le_max_left _ _), min_le_left 1 _⟩

/-! ## C1: risk tier thresholds -/

/-- **C1**: every assessment's tier is determined from its final score by
`s ≥ 75 → CRITICAL`, `50 ≤ s < 75 → HIGH`, `25 ≤ s < 50 → MEDIUM`,
`s < 25 → LOW`; boundary scores 75, 74.9, 50, 49.9, 25, 24.9 land in
CRITICAL, HIGH, HIGH, MEDIUM, MEDIUM, LOW respectively. -/
theorem C1_risk_tier_thresholds :
    (∀ customer app bureau market now,
      (calculate_comprehensive_risk customer app bureau market now).risk_level =
        determine_risk_level
          (calculate_comprehensive_risk customer app bureau market now).overall_risk_score) ∧
    (∀ s : ℚ,
      (determine_risk_level s = .CRITICAL ↔ 75 ≤ s) ∧
      (determine_risk_level s = .HIGH ↔ 50 ≤ s ∧ s < 75) ∧
      (determine_risk_level s = .MEDIUM ↔ 25 ≤ s ∧ s < 50) ∧
      (determine_risk_level s = .LOW ↔ s < 25)) ∧
    determine_risk_level 75 = .CRITICAL ∧ determine_risk_level 74.9 = .HIGH ∧
    determine_risk_level 50 = .HIGH ∧ determine_risk_level 49.9 = .MEDIUM ∧
    determine_risk_level 25 = .MEDIUM ∧ determine_risk_level 24.9 = .LOW := by
  refine ⟨fun customer app bureau market now => rfl, fun s => ?_, ?_, ?_, ?_, ?_, ?_, ?_⟩
  · unfold determine_risk_level
    split_ifs with h1 h2 h3 <;>
      refine ⟨?_, ?_, ?_, ?_⟩ <;>
      constructor <;>
      intro h <;>
      first
        | rfl
        | assumption
        | (exact absurd h (by decide))
        | (exact ⟨by linarith, by linarith⟩)
        | (exfalso; rcases h with ⟨ha, hb⟩; linarith)
        | (exfalso; linarith)
        | linarith
  all_goals norm_num [determine_risk_level]

/-! ## C2: output bounds -/

/-- **C2**: for every input the overall risk score lies in `[0, 100]` and the
confidence score in `[0.1, 1]`. -/
theorem C2_output_bounds (customer : CustomerData) (app : ApplicationData)
    (bureau : Option BureauData) (market : List MarketInsight) (now : ℤ) :
    0 ≤ (calculate_comprehensive_risk customer app bureau market now).overall_risk_score ∧
    (calculate_comprehensive_risk customer app bureau market now).overall_risk_score ≤ 100 ∧
    0.1 ≤ (calculate_comprehensive_risk customer app bureau market now).confidence_score ∧
    (calculate_comprehensive_risk customer app bureau market now).confidence_score ≤ 1 := by
  have hs := apply_risk_adjustments_bounds (pipeline_base_score customer app bureau market now)
    (pipeline_risk_factors customer app bureau market now) customer app
  have hc := confidence_score_bounds customer bureau
    (pipeline_risk_factors customer app bureau market now)
  simp only [calculate_comprehensive_risk, pipeline_adjusted] at *
  exact ⟨hs.1, hs.2, hc.1, hc.2⟩

/-! ## C3: defensive division guards and totality -/

/-- **C3**: the scoring function is total on well-formed inputs; the
debt-to-income ratio is the worst-case 1.0 when monthly income is zero, and
the delinquency rate is 0 when there are no accounts. -/
theorem C3_division_guards (customer : CustomerData) (app : ApplicationData)
    (bureau : Option BureauData) (market : List MarketInsight) (now : ℤ)
    (hinc : customer.personalInfo.annualIncome = 0) :
    dti_of customer = 1 ∧
    delinquency_rate [] = 0 ∧
    ∃ a : RiskAssessment, calculate_comprehensive_risk customer app bureau market now = a := by
  refine ⟨?_, by simp [delinquency_rate], ⟨_, rfl⟩⟩
  unfold dti_of monthly_income_of
  rw [hinc]
  norm_num

/-- Witness for C3 at a concrete zero-income customer. -/
theorem C3_division_guards_witness :
    dti_of customer_zero_income = 1 ∧
    delinquency_rate [] = 0 ∧
    ∃ a : RiskAssessment,
      calculate_comprehensive_risk customer_zero_income app_base none [] 0 = a :=
  C3_division_guards customer_zero_income app_base none [] 0 rfl

/-! ## C9: Reasoner failure handling -/

/-- **C9 counterexample**: at a concrete input, a malformed Reasoner reply
makes `evaluate_credit_risk` surface the Reasoner error to its caller and
return no evaluation at all — contradicting the claim that the computed
numeric score would still be returned with only narrative fields omitted. -/
theorem C9_counterexample :
    evaluate_credit_risk customer_base app_base none [] 0 (.error "malformed") =
      .error "malformed" ∧
    ∀ ev : RiskEvaluation,
      evaluate_credit_risk customer_base app_base none [] 0 (.error "malformed") ≠ .ok ev := by
  refine ⟨rfl, ?_⟩
  intro ev h
  simp [evaluate_credit_risk, perform_ai_risk_analysis] at h

/-- **C9 amended**: a failing or malformed Reasoner response propagates out
of `evaluate_credit_risk` unchanged (the outer handler logs and re-raises):
the caller receives the Reasoner error and no evaluation, so the computed
numeric assessment is discarded rather than returned. -/
theorem C9_amended (customer : CustomerData) (app : ApplicationData)
    (bureau : Option BureauData) (market : List MarketInsight) (now : ℤ)
    (e : String) :
    evaluate_credit_risk customer app bureau market now (.error e) = .error e ∧
    ∀ ev : RiskEvaluation,
      evaluate_credit_risk customer app bureau market now (.error e) ≠ .ok ev := by
  refine ⟨rfl, ?_⟩
  intro ev h
  simp [evaluate_credit_risk, perform_ai_risk_analysis] at h

/-! ## C10: component clamping asymmetry -/

/-- **C10**: the financial, behavioral, demographic and external sub-scores
are each kept in `[0, 100]` before weighting, but the credit component is
not clamped: a 500 credit score with POOR payment history and 0.9
utilization yields `(85 + 10 + 8) * 2.5 = 257.5 > 100`. -/
theorem C10_credit_component_unclamped :
    (∀ customer app, 0 ≤ (calculate_financial_component customer app).1 ∧
      (calculate_financial_component customer app).1 ≤ 100) ∧
    (∀ customer bureau now, 0 ≤ (calculate_behavioral_component customer bureau now).1 ∧
      (calculate_behavioral_component customer bureau now).1 ≤ 100) ∧
    (∀ customer, 0 ≤ (calculate_demographic_component customer).1 ∧
      (calculate_demographic_component customer).1 ≤ 100) ∧
    (∀ customer market, 0 ≤ (calculate_external_component customer market).1 ∧
      (calculate_external_component customer market).1 ≤ 100) ∧
    (calculate_credit_score_component customer_base (some bureau_poor)).1 = 257.5 ∧
    100 < (calculate_credit_score_component customer_base (some bureau_poor)).1 := by
  have h : (calculate_credit_score_component customer_base (some bureau_poor)).1 = 257.5 := by
    norm_num [calculate_credit_score_component, customer_base, bureau_poor,
      resolved_credit_score, band_lookup]
  refine ⟨financial_component_bounds, behavioral_component_bounds,
    demographic_component_bounds, external_component_bounds, h, by rw [h]; norm_num⟩

/-! ## C8: fraud trend identification -/

/-- An article whose content is exactly "skimming surge" (the C8 scenario). -/
def skimming_article (src : String) : NewsArticle :=
  { title := "skimming surge", url := "", description := "", published_date := "",
    source := src, relevance_score := 0, sentiment := "", key_insights := [] }

/-- Unrolling the accumulator fold of `identify_fraud_trends` into a
`filterMap` over the keyword table. -/
theorem foldl_trends_eq (articles : List NewsArticle)
    (tbl : List (String × List String)) (init : List FraudTrend) :
    tbl.foldl
      (fun trends p =>
        if (articles.filter (article_matches p.2)).isEmpty then trends
        else trends ++ [trend_of articles p]) init =
    init ++ tbl.filterMap
      (fun p =>
        if (articles.filter (article_matches p.2)).isEmpty then none
        else some (trend_of articles p)) := by
  induction tbl generalizing init with
  | nil => simp
  | cons q tbl ih =>
    simp only [List.foldl_cons, List.filterMap_cons]
    by_cases h : (articles.filter (article_matches q.2)).isEmpty
    · rw [if_pos h, ih, if_pos h]
    · rw [if_neg h, ih, if_neg h]
      simp

/-- `identify_fraud_trends` as a `filterMap` over the keyword table. -/
theorem identify_fraud_trends_eq (articles : List NewsArticle) :
    identify_fraud_trends articles =
      fraud_keywords.filterMap
        (fun p =>
          if (articles.filter (article_matches p.2)).isEmpty then none
          else some (trend_of articles p)) := by
  unfold identify_fraud_trends
  rw [foldl_trends_eq]
  simp

/-- The category names of the keyword table are pairwise distinct. -/
theorem fraud_keywords_nodup : (fraud_keywords.map Prod.fst).Nodup := by decide

/-- **C8**: for each keyword category, a trend is produced iff some document
matches one of its keywords; every produced trend's confidence equals
`min(0.9, 0.15 * matching_count)`; and three documents reading
"skimming surge" yield exactly one credit_card_skimming trend with severity
HIGH and confidence 0.45. -/
theorem C8_fraud_trend_confidence :
    (∀ (articles : List NewsArticle) (cat : String) (kws : List String),
      (cat, kws) ∈ fraud_keywords →
      (((identify_fraud_trends articles).filter (fun t => t.trend_type == cat)) ≠ [] ↔
        ∃ a ∈ articles, article_matches kws a = true)) ∧
    (∀ (articles : List NewsArticle) (t : FraudTrend),
      t ∈ identify_fraud_trends articles →
      ∃ kws, (t.trend_type, kws) ∈ fraud_keywords ∧
        t.confidence_level =
          min 0.9 (((articles.filter (article_matches kws)).length : ℚ) * 0.15)) ∧
    identify_fraud_trends
        [skimming_article "s1", skimming_article "s2", skimming_article "s3"] =
      [{ trend_type := "credit_card_skimming", severity := "HIGH",
         affected_demographics := [],
         prevention_strategies := ["Enhanced identity verification procedures",
           "Real-time transaction monitoring",
           "Multi-factor authentication implementation"],
         impact_description := "Emerging trend requiring monitoring and assessment",
         data_sources := ["s1", "s2", "s3"],
         confidence_level := 0.45 }] := by
  refine ⟨?_, ?_, ?_⟩
  · intro articles cat kws hmem
    rw [identify_fraud_trends_eq]
    constructor
    · intro hne
      obtain ⟨t, htm⟩ := List.exists_mem_of_ne_nil _ hne
      have htf := List.mem_filter.mp htm
      obtain ⟨p, hp, hfp⟩ := List.mem_filterMap.mp htf.1
      by_cases hemp : (articles.filter (article_matches p.2)).isEmpty
      · rw [if_pos hemp] at hfp
        exact absurd hfp (by simp)
      · rw [if_neg hemp] at hfp
        have ht : t = trend_of articles p := (Option.some.injEq _ _ ▸ hfp).symm
        have hcat : p.1 = cat := by
          have := htf.2
          rw [ht] at this
          simpa [trend_of] using this
        have hpe : p = (cat, kws) := by
          have := List.inj_on_of_nodup_map fraud_keywords_nodup hp hmem
          exact this (by simpa using hcat)
        rw [hpe] at hemp
        have hne2 : articles.filter (article_matches kws) ≠ [] := by
          intro h0
          exact hemp (by simp [h0])
        obtain ⟨a, ha⟩ := List.exists_mem_of_ne_nil _ hne2
        have := List.mem_filter.mp ha
        exact ⟨a, this.1, this.2⟩
    · rintro ⟨a, ha, hma⟩
      have hamem : a ∈ articles.filter (article_matches kws) :=
        List.mem_filter.mpr ⟨ha, hma⟩
      have hemp : (articles.filter (article_matches kws)).isEmpty = false := by
        rcases h : (articles.filter (article_matches kws)).isEmpty with _ | _
        · rfl
        · rw [List.isEmpty_iff] at h
          rw [h] at hamem
          exact absurd hamem (List.not_mem_nil a)
      have ht : trend_of articles (cat, kws) ∈
          fraud_keywords.filterMap
            (fun p =>
              if (articles.filter (article_matches p.2)).isEmpty then none
              else some (trend_of articles p)) :=
        List.mem_filterMap.mpr ⟨(cat, kws), hmem, by rw [hemp]; simp⟩
      apply List.ne_nil_of_mem (a := trend_of articles (cat, kws))
      exact List.mem_filter.mpr ⟨ht, by simp [trend_of]⟩
  · intro articles t ht
    rw [identify_fraud_trends_eq] at ht
    obtain ⟨p, hp, hfp⟩ := List.mem_filterMap.mp ht
    by_cases hemp : (articles.filter (article_matches p.2)).isEmpty
    · rw [if_pos hemp] at hfp
      exact absurd hfp (by simp)
    · rw [if_neg hemp] at hfp
      have htp : t = trend_of articles p := (Option.some.injEq _ _ ▸ hfp).symm
      refine ⟨p.2, ?_, ?_⟩
      · have : t.trend_type = p.1 := by rw [htp]; rfl
        rw [this]
        simpa using hp
      · rw [htp]
        rfl
  · have e1 : (([skimming_article "s1", skimming_article "s2", skimming_article "s3"].filter
        (article_matches ["skimming", "card reader", "ATM fraud", "point of sale"])).isEmpty)
        = false := by decide
    have e2 : (([skimming_article "s1", skimming_article "s2", skimming_article "s3"].filter
        (article_matches ["identity theft", "social security", "personal information",
          "data breach"])).isEmpty) = true := by decide
    have e3 : (([skimming_article "s1", skimming_article "s2", skimming_article "s3"].filter
        (article_matches ["synthetic identity", "fake identity", "identity creation"])).isEmpty)
        = true := by decide
    have e4 : (([skimming_article "s1", skimming_article "s2", skimming_article "s3"].filter
        (article_matches ["account takeover", "credential stuffing", "password breach"])).isEmpty)
        = true := by decide
    have e5 : (([skimming_article "s1", skimming_article "s2", skimming_article "s3"].filter
        (article_matches ["online fraud", "e-commerce fraud", "digital fraud",
          "phishing"])).isEmpty) = true := by decide
    rw [identify_fraud_trends_eq]
    show List.filterMap _
      [("credit_card_skimming", ["skimming", "card reader", "ATM fraud", "point of sale"]),
       ("identity_theft", ["identity theft", "social security", "personal information", "data breach"]),
       ("synthetic_fraud", ["synthetic identity", "fake identity", "identity creation"]),
       ("account_takeover", ["account takeover", "credential stuffing", "password breach"]),
       ("online_fraud", ["online fraud", "e-commerce fraud", "digital fraud", "phishing"])] = _
    simp only [List.filterMap_cons, List.filterMap_nil, e1, e2, e3, e4, e5,
      Bool.false_eq_true, if_false, if_true]
    refine List.cons_eq_cons.mpr ⟨?_, rfl⟩
    unfold trend_of
    simp only [FraudTrend.mk.injEq]
    refine ⟨by decide, by decide, by decide, by decide, by decide, by decide, ?_⟩
    have hlen : (([skimming_article "s1", skimming_article "s2", skimming_article "s3"].filter
        (article_matches ["skimming", "card reader", "ATM fraud", "point of sale"])).length)
        = 3 := by decide
    rw [hlen]
    norm_num

/-! ## C7: determinism and the clock -/

/-- **C7 counterexample**: identical `(customer, application, bureau, market)`
inputs evaluated at two different clock times (day 50 vs day 1000, with
three hard inquiries dated day 0) produce different overall risk scores —
the recency checks read the clock, so the claim "identical inputs yield
identical assessments excluding only the timestamp" fails. -/
theorem C7_counterexample :
    (calculate_comprehensive_risk customer_base app_base (some bureau_inquiries) []
      50).overall_risk_score ≠
    (calculate_comprehensive_risk customer_base app_base (some bureau_inquiries) []
      1000).overall_risk_score := by
  have hocc : strToLower "engineer" = "engineer" := by decide
  have hst : strToUpper "CA" = "CA" := by decide
  have hlk : industry_risk_multipliers.lookup "engineer" = none := by decide
  have hft : is_first_time_customer customer_base = false := by decide
  have hai : customer_base.personalInfo.annualIncome = 50000 := rfl
  have hrl : app_base.requested_limit = 10000 := rfl
  have h50 : (calculate_comprehensive_risk customer_base app_base (some bureau_inquiries) []
      50).overall_risk_score = 85/4 := by
    have hbase : pipeline_base_score customer_base app_base (some bureau_inquiries) [] 50 =
        85/4 := by
      norm_num +decide [pipeline_base_score, calculate_credit_score_component,
        calculate_financial_component, calculate_behavioral_component,
        calculate_demographic_component, calculate_external_component,
        band_lookup, resolved_credit_score, dti_of, monthly_income_of, is_recent_date,
        delinquency_rate, hocc, hst, hlk, customer_base, bureau_inquiries, app_base,
        w_credit_score, w_financial_stability, w_behavioral_patterns, w_demographic_factors,
        w_external_factors, List.filter_cons, List.filter_nil]
    have hhigh : ((pipeline_risk_factors customer_base app_base (some bureau_inquiries) []
        50).filter (fun rf => rf.severity == "HIGH")).length = 0 := by
      norm_num +decide [pipeline_risk_factors, calculate_credit_score_component,
        calculate_financial_component, calculate_behavioral_component,
        calculate_demographic_component, calculate_external_component,
        band_lookup, resolved_credit_score, dti_of, monthly_income_of, is_recent_date,
        delinquency_rate, hocc, hst, hlk, customer_base, bureau_inquiries, app_base,
        List.filter_cons, List.filter_nil, List.filter_append]
    have hcrit : ((pipeline_risk_factors customer_base app_base (some bureau_inquiries) []
        50).filter (fun rf => rf.severity == "CRITICAL")).length = 0 := by
      norm_num +decide [pipeline_risk_factors, calculate_credit_score_component,
        calculate_financial_component, calculate_behavioral_component,
        calculate_demographic_component, calculate_external_component,
        band_lookup, resolved_credit_score, dti_of, monthly_income_of, is_recent_date,
        delinquency_rate, hocc, hst, hlk, customer_base, bureau_inquiries, app_base,
        List.filter_cons, List.filter_nil, List.filter_append]
    show (pipeline_adjusted customer_base app_base (some bureau_inquiries) [] 50).1 = 85/4
    unfold pipeline_adjusted
    rw [hbase]
    norm_num +decide [apply_risk_adjustments, hft, hai, hrl, hhigh, hcrit]
  have h1000 : (calculate_comprehensive_risk customer_base app_base (some bureau_inquiries) []
      1000).overall_risk_score = 77/4 := by
    have hbase : pipeline_base_score customer_base app_base (some bureau_inquiries) [] 1000 =
        77/4 := by
      norm_num +decide [pipeline_base_score, calculate_credit_score_component,
        calculate_financial_component, calculate_behavioral_component,
        calculate_demographic_component, calculate_external_component,
        band_lookup, resolved_credit_score, dti_of, monthly_income_of, is_recent_date,
        delinquency_rate, hocc, hst, hlk, customer_base, bureau_inquiries, app_base,
        w_credit_score, w_financial_stability, w_behavioral_patterns, w_demographic_factors,
        w_external_factors, List.filter_cons, List.filter_nil]
    have hhigh : ((pipeline_risk_factors customer_base app_base (some bureau_inquiries) []
        1000).filter (fun rf => rf.severity == "HIGH")).length = 0 := by
      norm_num +decide [pipeline_risk_factors, calculate_credit_score_component,
        calculate_financial_component, calculate_behavioral_component,
        calculate_demographic_component, calculate_external_component,
        band_lookup, resolved_credit_score, dti_of, monthly_income_of, is_recent_date,
        delinquency_rate, hocc, hst, hlk, customer_base, bureau_inquiries, app_base,
        List.filter_cons, List.filter_nil, List.filter_append]
    have hcrit : ((pipeline_risk_factors customer_base app_base (some bureau_inquiries) []
        1000).filter (fun rf => rf.severity == "CRITICAL")).length = 0 := by
      norm_num +decide [pipeline_risk_factors, calculate_credit_score_component,
        calculate_financial_component, calculate_behavioral_component,
        calculate_demographic_component, calculate_external_component,
        band_lookup, resolved_credit_score, dti_of, monthly_income_of, is_recent_date,
        delinquency_rate, hocc, hst, hlk, customer_base, bureau_inquiries, app_base,
        List.filter_cons, List.filter_nil, List.filter_append]
    show (pipeline_adjusted customer_base app_base (some bureau_inquiries) [] 1000).1 = 77/4
    unfold pipeline_adjusted
    rw [hbase]
    norm_num +decide [apply_risk_adjustments, hft, hai, hrl, hhigh, hcrit]
  rw [h50, h1000]
  norm_num

/-- **C7 amended**: the scoring engine is deterministic once the evaluation
clock is fixed: two calls on identical inputs at the same `now` produce
identical `RiskAssessment`s in every field; at different clock times the
recency checks (`_is_recent_inquiry` / `_is_recent_account`) may change the
result beyond the timestamp. -/
theorem C7_amended (customer : CustomerData) (app : ApplicationData)
    (bureau : Option BureauData) (market : List MarketInsight) (now : ℤ)
    (r1 r2 : RiskAssessment)
    (h1 : r1 = calculate_comprehensive_risk customer app bureau market now)
    (h2 : r2 = calculate_comprehensive_risk customer app bureau market now) :
    r1 = r2 :=
  h1.trans h2.symm

/-- Witness for the amended C7 at a concrete input. -/
theorem C7_amended_witness :
    calculate_comprehensive_risk customer_base app_base none [] 0 =
      calculate_comprehensive_risk customer_base app_base none [] 0 :=
  C7_amended customer_base app_base none [] 0 _ _ rfl rfl

/-! ## C4: the adjustment formula -/

/-- The claim's worded definition of "first-time": bureau credit score below
600 or bureau data absent.  (Comparison definition written from the claim's
words; the code's `_is_first_time_customer` instead reads the customer
profile's `creditScore`.) -/
def spec_is_first_time (bureau : Option BureauData) : Bool :=
  match bureau with
  | none => true
  | some b =>
    match b.credit_score with
    | none => true
    | some cs => decide (cs < 600)

/-- The high-credit-limit condition (identical in the claim and the code):
positive annual income and requested limit above half of it. -/
def high_limit_requested (customer : CustomerData) (app : ApplicationData) : Bool :=
  decide (0 < customer.personalInfo.annualIncome ∧
    app.requested_limit / customer.personalInfo.annualIncome > 0.5)

/-- The ordered adjustment formula as worded by the claim: starting from the
weighted base, add 10% of base for a first-time applicant, 15% of base for a
high limit request, then 25% of base per CRITICAL factor or (only when no
CRITICAL factor exists) 12% of base per HIGH factor beyond the second, and
clamp to `[0, 100]`.  The first-time flag is a parameter so the claim's
bureau-based flag and the code's profile-based flag can be compared. -/
def spec_adjusted_score (base : ℚ) (factors : List RiskFactor)
    (first_time high_limit : Bool) : ℚ :=
  let s1 := base + (if first_time then 0.1 * base else 0)
  let s2 := s1 + (if high_limit then 0.15 * base else 0)
  let crit := (factors.filter (fun rf => rf.severity == "CRITICAL")).length
  let high := (factors.filter (fun rf => rf.severity == "HIGH")).length
  let s3 :=
    if 0 < crit then s2 + 0.25 * base * crit
    else if 2 < high then s2 + 0.12 * base * ((high : ℚ) - 2)
    else s2
  min 100 (max 0 s3)

/-- `_apply_risk_adjustments` computes exactly the claim's formula, with the
first-time flag taken from the customer profile. -/
theorem apply_eq_spec (base : ℚ) (factors : List RiskFactor)
    (customer : CustomerData) (app : ApplicationData) :
    (apply_risk_adjustments base factors customer app).1 =
      spec_adjusted_score base factors (is_first_time_customer customer)
        (high_limit_requested customer app) := by
  unfold apply_risk_adjustments spec_adjusted_score high_limit_requested
  simp only [decide_eq_true_eq]
  split_ifs <;> ring_nf

/-- **C4 counterexample**: a customer whose profile credit score is missing
(reads as 0) but whose bureau score is 700 — the code's first-time test
fires (profile score `0 < 600`) while the claim's bureau-based test does
not, so the claim's formula disagrees with the produced score
(21.175 vs 19.25). -/
theorem C4_counterexample :
    (calculate_comprehensive_risk (customer_with_score 0) app_base (some bureau_clean) []
      0).overall_risk_score ≠
    spec_adjusted_score
      (calculate_comprehensive_risk (customer_with_score 0) app_base (some bureau_clean) []
        0).score_breakdown.base_score
      (calculate_comprehensive_risk (customer_with_score 0) app_base (some bureau_clean) []
        0).risk_factors
      (spec_is_first_time (some bureau_clean))
      (high_limit_requested (customer_with_score 0) app_base) := by
  have hocc : strToLower "engineer" = "engineer" := by decide
  have hst : strToUpper "CA" = "CA" := by decide
  have hlk : industry_risk_multipliers.lookup "engineer" = none := by decide
  have hbase : pipeline_base_score (customer_with_score 0) app_base (some bureau_clean) [] 0 =
      77/4 := by
    norm_num +decide [pipeline_base_score, calculate_credit_score_component,
      calculate_financial_component, calculate_behavioral_component,
      calculate_demographic_component, calculate_external_component,
      band_lookup, resolved_credit_score, dti_of, monthly_income_of, is_recent_date,
      delinquency_rate, hocc, hst, hlk, customer_base, customer_with_score, bureau_clean,
      app_base, w_credit_score, w_financial_stability, w_behavioral_patterns,
      w_demographic_factors, w_external_factors, List.filter_cons, List.filter_nil]
  have hhigh : ((pipeline_risk_factors (customer_with_score 0) app_base (some bureau_clean) []
      0).filter (fun rf => rf.severity == "HIGH")).length = 0 := by
    norm_num +decide [pipeline_risk_factors, calculate_credit_score_component,
      calculate_financial_component, calculate_behavioral_component,
      calculate_demographic_component, calculate_external_component,
      band_lookup, resolved_credit_score, dti_of, monthly_income_of, is_recent_date,
      delinquency_rate, hocc, hst, hlk, customer_base, customer_with_score, bureau_clean,
      app_base, List.filter_cons, List.filter_nil, List.filter_append]
  have hcrit : ((pipeline_risk_factors (customer_with_score 0) app_base (some bureau_clean) []
      0).filter (fun rf => rf.severity == "CRITICAL")).length = 0 := by
    norm_num +decide [pipeline_risk_factors, calculate_credit_score_component,
      calculate_financial_component, calculate_behavioral_component,
      calculate_demographic_component, calculate_external_component,
      band_lookup, resolved_credit_score, dti_of, monthly_income_of, is_recent_date,
      delinquency_rate, hocc, hst, hlk, customer_base, customer_with_score, bureau_clean,
      app_base, List.filter_cons, List.filter_nil, List.filter_append]
  have hft : is_first_time_customer (customer_with_score 0) = true := by decide
  have hsft : spec_is_first_time (some bureau_clean) = false := by decide
  have hai : (customer_with_score 0).personalInfo.annualIncome = 50000 := rfl
  have hrl : app_base.requested_limit = 10000 := rfl
  have hhl : high_limit_requested (customer_with_score 0) app_base = false := by
    norm_num [high_limit_requested, hai, hrl]
  have hlhs : (calculate_comprehensive_risk (customer_with_score 0) app_base
      (some bureau_clean) [] 0).overall_risk_score = 847/40 := by
    show (pipeline_adjusted (customer_with_score 0) app_base (some bureau_clean) [] 0).1 =
      847/40
    unfold pipeline_adjusted
    rw [hbase]
    norm_num +decide [apply_risk_adjustments, hft, hai, hrl, hhigh, hcrit]
  have hrhs : spec_adjusted_score
      (calculate_comprehensive_risk (customer_with_score 0) app_base (some bureau_clean) []
        0).score_breakdown.base_score
      (calculate_comprehensive_risk (customer_with_score 0) app_base (some bureau_clean) []
        0).risk_factors
      (spec_is_first_time (some bureau_clean))
      (high_limit_requested (customer_with_score 0) app_base) = 77/4 := by
    show spec_adjusted_score
      (pipeline_base_score (customer_with_score 0) app_base (some bureau_clean) [] 0)
      (pipeline_risk_factors (customer_with_score 0) app_base (some bureau_clean) [] 0)
      (spec_is_first_time (some bureau_clean))
      (high_limit_requested (customer_with_score 0) app_base) = 77/4
    rw [hbase, hsft, hhl]
    norm_num [spec_adjusted_score, hhigh, hcrit]
  rw [hlhs, hrhs]
  norm_num

/-- **C4 amended**: the final score is the claim's ordered adjustment formula
applied to `base = Σ component_i * weight_i` and the factor list — with the
first-time flag defined from the customer profile's `creditScore`
(`< 600` or missing/0), not from the bureau score. -/
theorem C4_amended (customer : CustomerData) (app : ApplicationData)
    (bureau : Option BureauData) (market : List MarketInsight) (now : ℤ) :
    (calculate_comprehensive_risk customer app bureau market now).score_breakdown.base_score =
      (calculate_comprehensive_risk customer app bureau market
          now).score_breakdown.credit_score_component * w_credit_score +
      (calculate_comprehensive_risk customer app bureau market
          now).score_breakdown.financial_component * w_financial_stability +
      (calculate_comprehensive_risk customer app bureau market
          now).score_breakdown.behavioral_component * w_behavioral_patterns +
      (calculate_comprehensive_risk customer app bureau market
          now).score_breakdown.demographic_component * w_demographic_factors +
      (calculate_comprehensive_risk customer app bureau market
          now).score_breakdown.external_component * w_external_factors ∧
    (calculate_comprehensive_risk customer app bureau market now).overall_risk_score =
      spec_adjusted_score
        (calculate_comprehensive_risk customer app bureau market
          now).score_breakdown.base_score
        (calculate_comprehensive_risk customer app bureau market now).risk_factors
        (is_first_time_customer customer)
        (high_limit_requested customer app) := by
  constructor
  · rfl
  · show (pipeline_adjusted customer app bureau market now).1 = _
    unfold pipeline_adjusted
    exact apply_eq_spec _ _ _ _

/-! ## C6: behaviour without bureau data -/

/-- The credit component never emits a CRITICAL factor (severities are
HIGH/MEDIUM/LOW only). -/
theorem credit_factors_not_critical (customer : CustomerData) (bureau : Option BureauData) :
    ∀ f ∈ (calculate_credit_score_component customer bureau).2,
      ¬ f.severity = "CRITICAL" := by
  intro f hf
  cases bureau with
  | none =>
    simp only [calculate_credit_score_component, List.mem_singleton] at hf
    subst hf
    split_ifs <;> simp
  | some b =>
    simp only [calculate_credit_score_component, List.mem_append,
      List.mem_singleton] at hf
    rcases hf with (rfl | hf) | hf
    · split_ifs <;> simp
    · split_ifs at hf <;> simp_all
    · split_ifs at hf <;> simp_all

/-- The financial component never emits a CRITICAL factor. -/
theorem financial_factors_not_critical (customer : CustomerData) (app : ApplicationData) :
    ∀ f ∈ (calculate_financial_component customer app).2, ¬ f.severity = "CRITICAL" := by
  intro f hf
  simp only [calculate_financial_component, List.mem_append, List.mem_singleton] at hf
  rcases hf with ((rfl | hf) | hf) | hf
  · split_ifs <;> simp
  · split_ifs at hf <;> simp_all
  · split_ifs at hf <;> simp_all
  · rcases hlk : industry_risk_multipliers.lookup
        (strToLower (customer.personalInfo.occupation.getD "unknown")) with _ | m <;>
      rw [hlk] at hf
    · simp at hf
    · simp only at hf
      split_ifs at hf <;> simp_all

/-- The demographic component never emits a CRITICAL factor. -/
theorem demographic_factors_not_critical (customer : CustomerData) :
    ∀ f ∈ (calculate_demographic_component customer).2, ¬ f.severity = "CRITICAL" := by
  intro f hf
  simp only [calculate_demographic_component, List.mem_append] at hf
  rcases hf with hf | hf <;> split_ifs at hf <;> simp_all

/-- One step of the market-insight loop preserves the absence of CRITICAL
factors. -/
theorem external_step_not_critical (acc : ℚ × List RiskFactor) (i : MarketInsight)
    (h : ∀ f ∈ acc.2, ¬ f.severity = "CRITICAL") :
    ∀ f ∈ (external_insight_step acc i).2, ¬ f.severity = "CRITICAL" := by
  intro f hf
  unfold external_insight_step at hf
  split_ifs at hf <;>
    first
      | exact h f hf
      | (simp only [List.mem_append, List.mem_singleton] at hf
         rcases hf with hf | rfl
         · exact h f hf
         · simp)

/-- The market-insight fold preserves the absence of CRITICAL factors. -/
theorem external_fold_not_critical (l : List MarketInsight) (acc : ℚ × List RiskFactor)
    (h : ∀ f ∈ acc.2, ¬ f.severity = "CRITICAL") :
    ∀ f ∈ (l.foldl external_insight_step acc).2, ¬ f.severity = "CRITICAL" := by
  induction l generalizing acc with
  | nil => exact h
  | cons i is ih =>
    simp only [List.foldl_cons]
    exact ih _ (external_step_not_critical acc i h)

/-- The external component never emits a CRITICAL factor. -/
theorem external_factors_not_critical (customer : CustomerData)
    (market : List MarketInsight) :
    ∀ f ∈ (calculate_external_component customer market).2,
      ¬ f.severity = "CRITICAL" := by
  intro f hf
  unfold calculate_external_component at hf
  cases market with
  | nil => simp at hf
  | cons i is =>
    have hfold := external_fold_not_critical ((i :: is).take 5) (15, [])
      (by intro g hg; simp at hg)
    simp only at hf
    split_ifs at hf <;>
      first
        | exact hfold f hf
        | (simp only [List.mem_append, List.mem_singleton] at hf
           rcases hf with hf | rfl
           · exact hfold f hf
           · simp)

/-- With no bureau data, no CRITICAL risk factor is ever produced. -/
theorem no_critical_without_bureau (customer : CustomerData) (app : ApplicationData)
    (market : List MarketInsight) (now : ℤ) :
    ((pipeline_risk_factors customer app none market now).filter
      (fun rf => rf.severity == "CRITICAL")) = [] := by
  apply List.filter_eq_nil_iff.mpr
  intro f hf
  unfold pipeline_risk_factors at hf
  simp only [List.mem_append] at hf
  simp only [beq_iff_eq]
  rcases hf with ((((hf | hf) | hf) | hf) | hf)
  · exact credit_factors_not_critical customer none f hf
  · exact financial_factors_not_critical customer app f hf
  · rw [show calculate_behavioral_component customer none now = (25, []) from rfl] at hf
    simp at hf
  · exact demographic_factors_not_critical customer f hf
  · exact external_factors_not_critical customer market f hf

/-- Clamped-confidence gap: if the raw value `x` is within `[0.1, 0.8]` and
`y` exceeds it by at least 0.2, the clamped values keep the 0.2 gap. -/
theorem clamp_conf_gap (x y : ℚ) (hx1 : 0.1 ≤ x) (hx2 : x ≤ 0.8)
    (hxy : x + 0.2 ≤ y) :
    min 1 (max 0.1 x) + 0.2 ≤ min 1 (max 0.1 y) := by
  rw [max_eq_right hx1, max_eq_right (by linarith), min_eq_right (by linarith)]
  rcases le_or_lt y 1 with h | h
  · rw [min_eq_right h]
    exact hxy
  · rw [min_eq_left h.le]
    linarith

set_option maxHeartbeats 2000000 in
/-- Adding any bureau record raises the (clamped) confidence by at least 0.2,
provided the without-bureau factor list has no CRITICAL factor. -/
theorem confidence_gap (customer : CustomerData) (b : BureauData)
    (fN fW : List RiskFactor)
    (hN : (fN.filter (fun rf => rf.severity == "CRITICAL")) = []) :
    calculate_confidence_score customer none fN + 0.2 ≤
    calculate_confidence_score customer (some b) fW := by
  unfold calculate_confidence_score
  rw [hN]
  simp only [List.length_nil, lt_self_iff_false, if_false]
  have hk : (0 : ℚ) ≤ ((fW.filter (fun rf => rf.severity == "CRITICAL")).length : ℚ) :=
    Nat.cast_nonneg _
  apply clamp_conf_gap <;> split_ifs <;> push_cast <;> linarith [hk]

/-- **C6**: with bureau data absent the behavioral component is the flat
default 25 with no behavioral factors, the evaluation is total, and the
confidence score is lower by at least 0.2 than the same request evaluated
with any bureau data present. -/
theorem C6_missing_bureau (customer : CustomerData) (app : ApplicationData)
    (market : List MarketInsight) (now : ℤ) :
    calculate_behavioral_component customer none now = (25, []) ∧
    ∀ b : BureauData,
      (calculate_comprehensive_risk customer app none market now).confidence_score + 0.2 ≤
      (calculate_comprehensive_risk customer app (some b) market now).confidence_score := by
  refine ⟨rfl, fun b => ?_⟩
  show calculate_confidence_score customer none
      (pipeline_risk_factors customer app none market now) + 0.2 ≤
    calculate_confidence_score customer (some b)
      (pipeline_risk_factors customer app (some b) market now)
  exact confidence_gap customer b _ _ (no_critical_without_bureau customer app market now)

/-! ## C5: monotonicity in the credit score -/

/-- "The same input with credit score `s`": the customer profile's
`creditScore` is set to `s`, and when the bureau record carries a
`credit_score` key its value is set to `s` as well (so `s` is the effective
credit score wherever the code reads one).  Everything else is unchanged. -/
def set_credit_score (customer : CustomerData) (bureau : Option BureauData)
    (s : ℤ) : CustomerData × Option BureauData :=
  ({ customer with
     financialProfile := { customer.financialProfile with creditScore := s } },
   bureau.map (fun b => { b with credit_score := b.credit_score.map (fun _ => s) }))

/-- The bureau add-on to `base_risk` in the credit component (payment
history and utilization), independent of the credit score. -/
def credit_extra (bureau : Option BureauData) : ℚ :=
  match bureau with
  | none => 0
  | some b =>
    (if b.account_summary.payment_history == "POOR" then 10
     else if b.account_summary.payment_history == "FAIR" then 5
     else 0) +
    (if b.account_summary.credit_utilization > 0.80 then 8 else 0)

/-- The number of HIGH-severity bureau add-on factors in the credit
component (POOR payment history and high utilization). -/
def extra_high (bureau : Option BureauData) : ℕ :=
  match bureau with
  | none => 0
  | some b =>
    (if b.account_summary.payment_history == "POOR" then 1 else 0) +
    (if b.account_summary.credit_utilization > 0.80 then 1 else 0)

/-- The credit component score is `(base_risk + add-ons) * multiplier`. -/
theorem credit_comp_fst (customer : CustomerData) (bureau : Option BureauData) :
    (calculate_credit_score_component customer bureau).1 =
      ((band_lookup (resolved_credit_score customer bureau)).1 + credit_extra bureau) *
        (band_lookup (resolved_credit_score customer bureau)).2 := by
  cases bureau with
  | none =>
    simp only [calculate_credit_score_component, credit_extra]
    ring
  | some b =>
    simp only [calculate_credit_score_component, credit_extra]
    ring

/-- HIGH-severity count of the credit component's factors. -/
theorem credit_high_count (customer : CustomerData) (bureau : Option BureauData) :
    ((calculate_credit_score_component customer bureau).2.filter
      (fun rf => rf.severity == "HIGH")).length =
    (if resolved_credit_score customer bureau < 650 then 1 else 0) +
      extra_high bureau := by
  cases bureau with
  | none =>
    simp only [calculate_credit_score_component, extra_high]
    split_ifs <;> simp_all
  | some b =>
    simp only [calculate_credit_score_component, extra_high, List.filter_append,
      List.length_append]
    split_ifs <;> simp_all

/-- The credit component's factors contain no CRITICAL factor (filter form). -/
theorem credit_crit_filter (customer : CustomerData) (bureau : Option BureauData) :
    ((calculate_credit_score_component customer bureau).2.filter
      (fun rf => rf.severity == "CRITICAL")) = [] :=
  List.filter_eq_nil_iff.mpr (fun f hf => by
    simpa using credit_factors_not_critical customer bureau f hf)

/-- Band base risks are nonnegative. -/
theorem band_base_nonneg (s : ℤ) : 0 ≤ (band_lookup s).1 := by
  unfold band_lookup
  split_ifs <;> norm_num

/-- Band multipliers are nonnegative. -/
theorem band_mult_nonneg (s : ℤ) : 0 ≤ (band_lookup s).2 := by
  unfold band_lookup
  split_ifs <;> norm_num

set_option maxHeartbeats 2000000 in
/-- Within the banded range `[300, 850]`, a lower credit score gets a band
with a base risk and multiplier at least as large. -/
theorem band_mono (x y : ℤ) (hx : 300 ≤ x) (hxy : x ≤ y) (hy : y ≤ 850) :
    (band_lookup y).1 ≤ (band_lookup x).1 ∧ (band_lookup y).2 ≤ (band_lookup x).2 := by
  unfold band_lookup
  split_ifs <;> constructor <;> first | (exfalso; omega) | norm_num

/-- The non-credit components ignore the credit score fields. -/
theorem components_set_invariant (customer : CustomerData) (app : ApplicationData)
    (bureau : Option BureauData) (market : List MarketInsight) (now : ℤ) (s : ℤ) :
    calculate_financial_component (set_credit_score customer bureau s).1 app =
      calculate_financial_component customer app ∧
    calculate_behavioral_component (set_credit_score customer bureau s).1
        (set_credit_score customer bureau s).2 now =
      calculate_behavioral_component customer bureau now ∧
    calculate_demographic_component (set_credit_score customer bureau s).1 =
      calculate_demographic_component customer ∧
    calculate_external_component (set_credit_score customer bureau s).1 market =
      calculate_external_component customer market := by
  refine ⟨rfl, ?_, rfl, rfl⟩
  cases bureau <;> rfl

/-- The effective credit score after `set_credit_score` is `s`. -/
theorem resolved_set (customer : CustomerData) (bureau : Option BureauData) (s : ℤ) :
    resolved_credit_score (set_credit_score customer bureau s).1
      (set_credit_score customer bureau s).2 = s := by
  cases bureau with
  | none => rfl
  | some b =>
    simp only [set_credit_score, resolved_credit_score]
    rcases hcs : b.credit_score with _ | cs <;> simp [hcs]

/-- The bureau add-ons are unchanged by `set_credit_score`. -/
theorem credit_extra_set (customer : CustomerData) (bureau : Option BureauData) (s : ℤ) :
    credit_extra (set_credit_score customer bureau s).2 = credit_extra bureau ∧
    extra_high (set_credit_score customer bureau s).2 = extra_high bureau := by
  cases bureau <;> exact ⟨rfl, rfl⟩

/-- The first-time flag after `set_credit_score` depends only on `s`. -/
theorem ft_set (customer : CustomerData) (bureau : Option BureauData) (s : ℤ) :
    is_first_time_customer (set_credit_score customer bureau s).1 =
      (decide (s < 600) || decide (s = 0)) := rfl

/-- The high-limit flag is unchanged by `set_credit_score`. -/
theorem hl_set (customer : CustomerData) (bureau : Option BureauData) (s : ℤ)
    (app : ApplicationData) :
    high_limit_requested (set_credit_score customer bureau s).1 app =
      high_limit_requested customer app := rfl

/-- Monotonicity of the claim's adjustment formula in base score, first-time
flag and HIGH count (with equal CRITICAL count and limit flag). -/
theorem spec_adjusted_mono (B1 B2 : ℚ) (F1 F2 : List RiskFactor) (ft1 ft2 hl : Bool)
    (hB : B2 ≤ B1) (hB0 : 0 ≤ B2)
    (hft : ft2 = true → ft1 = true)
    (hcrit : (F1.filter (fun rf => rf.severity == "CRITICAL")).length =
             (F2.filter (fun rf => rf.severity == "CRITICAL")).length)
    (hhigh : (F2.filter (fun rf => rf.severity == "HIGH")).length ≤
             (F1.filter (fun rf => rf.severity == "HIGH")).length) :
    spec_adjusted_score B2 F2 ft2 hl ≤ spec_adjusted_score B1 F1 ft1 hl := by
  unfold spec_adjusted_score
  apply min_le_min le_rfl
  apply max_le_max le_rfl
  have hB1 : (0 : ℚ) ≤ B1 := le_trans hB0 hB
  have hi : (if ft2 then 0.1 * B2 else 0) ≤ (if ft1 then 0.1 * B1 else 0) := by
    cases hf2 : ft2 with
    | false =>
      simp only [Bool.false_eq_true, if_false]
      split_ifs <;> linarith
    | true =>
      rw [hft hf2]
      simp only [if_true]
      linarith
  have hj : (if hl then 0.15 * B2 else 0) ≤ (if hl then 0.15 * B1 else 0) := by
    cases hl <;> simp <;> linarith
  set c1 := (F1.filter (fun rf => rf.severity == "CRITICAL")).length with hc1
  set h1 := (F1.filter (fun rf => rf.severity == "HIGH")).length with hh1
  set c2 := (F2.filter (fun rf => rf.severity == "CRITICAL")).length with hc2
  set h2 := (F2.filter (fun rf => rf.severity == "HIGH")).length with hh2
  have e1 : ∀ (S X Y : ℚ) (c h : ℕ),
      (if 0 < c then S + X else if 2 < h then S + Y else S) =
      S + (if 0 < c then X else if 2 < h then Y else 0) := by
    intro S X Y c h
    split_ifs <;> ring
  rw [e1, e1]
  have hcast : ((h2 : ℚ)) ≤ ((h1 : ℚ)) := Nat.cast_le.mpr hhigh
  have hk : (if 0 < c2 then 0.25 * B2 * c2 else if 2 < h2 then 0.12 * B2 * ((h2 : ℚ) - 2) else 0) ≤
      (if 0 < c1 then 0.25 * B1 * c1 else if 2 < h1 then 0.12 * B1 * ((h1 : ℚ) - 2) else 0) := by
    rcases Nat.eq_zero_or_pos c1 with hz | hp
    · have hz2 : c2 = 0 := by omega
      rw [hz, hz2]
      simp only [lt_self_iff_false, if_false]
      split_ifs with ha hb hb
      · have ha2 : (2 : ℚ) < (h2 : ℚ) := by exact_mod_cast ha
        have step : 0.12 * B2 ≤ 0.12 * B1 := by linarith
        exact mul_le_mul step (by linarith) (by linarith) (by linarith)
      · exact absurd (lt_of_lt_of_le ha hhigh) hb
      · have hb2 : (2 : ℚ) < (h1 : ℚ) := by exact_mod_cast hb
        have : (0 : ℚ) ≤ (h1 : ℚ) - 2 := by linarith
        have : (0 : ℚ) ≤ 0.12 * B1 := by linarith
        nlinarith
      · exact le_refl 0
    · have hp2 : 0 < c2 := by omega
      rw [if_pos hp, if_pos hp2, ← hcrit]
      have hc0 : (0 : ℚ) ≤ (c1 : ℚ) := Nat.cast_nonneg c1
      nlinarith
  linarith [hi, hj, hk]

/-- The bureau add-ons are nonnegative. -/
theorem credit_extra_nonneg (bureau : Option BureauData) : 0 ≤ credit_extra bureau := by
  cases bureau with
  | none => norm_num [credit_extra]
  | some b =>
    simp only [credit_extra]
    split_ifs <;> norm_num

/-- **C5 counterexample**: all else fixed, lowering the credit score from 300
to 299 *decreases* the overall risk score (32.725 vs 95.2875): a score of
299 falls outside every band and gets the default `(50, ×1.0)` instead of
the worst band `(85, ×2.5)`, so the claimed monotonicity fails below the
banded range. -/
theorem C5_counterexample :
    (calculate_comprehensive_risk (set_credit_score customer_base none 299).1 app_base
      (set_credit_score customer_base none 299).2 [] 0).overall_risk_score <
    (calculate_comprehensive_risk (set_credit_score customer_base none 300).1 app_base
      (set_credit_score customer_base none 300).2 [] 0).overall_risk_score := by
  show (calculate_comprehensive_risk (customer_with_score 299) app_base none []
      0).overall_risk_score <
    (calculate_comprehensive_risk (customer_with_score 300) app_base none []
      0).overall_risk_score
  have hocc : strToLower "engineer" = "engineer" := by decide
  have hst : strToUpper "CA" = "CA" := by decide
  have hlk : industry_risk_multipliers.lookup "engineer" = none := by decide
  have hrl : app_base.requested_limit = 10000 := rfl
  have h299 : (calculate_comprehensive_risk (customer_with_score 299) app_base none []
      0).overall_risk_score = 1309/40 := by
    have hbase : pipeline_base_score (customer_with_score 299) app_base none [] 0 =
        119/4 := by
      norm_num +decide [pipeline_base_score, calculate_credit_score_component,
        calculate_financial_component, calculate_behavioral_component,
        calculate_demographic_component, calculate_external_component,
        band_lookup, resolved_credit_score, dti_of, monthly_income_of, is_recent_date,
        delinquency_rate, hocc, hst, hlk, customer_base, customer_with_score, app_base,
        w_credit_score, w_financial_stability, w_behavioral_patterns, w_demographic_factors,
        w_external_factors, List.filter_cons, List.filter_nil]
    have hhigh : ((pipeline_risk_factors (customer_with_score 299) app_base none []
        0).filter (fun rf => rf.severity == "HIGH")).length = 1 := by
      norm_num +decide [pipeline_risk_factors, calculate_credit_score_component,
        calculate_financial_component, calculate_behavioral_component,
        calculate_demographic_component, calculate_external_component,
        band_lookup, resolved_credit_score, dti_of, monthly_income_of, is_recent_date,
        delinquency_rate, hocc, hst, hlk, customer_base, customer_with_score, app_base,
        List.filter_cons, List.filter_nil, List.filter_append]
    have hcrit : ((pipeline_risk_factors (customer_with_score 299) app_base none []
        0).filter (fun rf => rf.severity == "CRITICAL")).length = 0 := by
      norm_num +decide [pipeline_risk_factors, calculate_credit_score_component,
        calculate_financial_component, calculate_behavioral_component,
        calculate_demographic_component, calculate_external_component,
        band_lookup, resolved_credit_score, dti_of, monthly_income_of, is_recent_date,
        delinquency_rate, hocc, hst, hlk, customer_base, customer_with_score, app_base,
        List.filter_cons, List.filter_nil, List.filter_append]
    have hft : is_first_time_customer (customer_with_score 299) = true := by decide
    have hai : (customer_with_score 299).personalInfo.annualIncome = 50000 := rfl
    show (pipeline_adjusted (customer_with_score 299) app_base none [] 0).1 = 1309/40
    unfold pipeline_adjusted
    rw [hbase]
    norm_num +decide [apply_risk_adjustments, hft, hai, hrl, hhigh, hcrit]
  have h300 : (calculate_comprehensive_risk (customer_with_score 300) app_base none []
      0).overall_risk_score = 7623/80 := by
    have hbase : pipeline_base_score (customer_with_score 300) app_base none [] 0 =
        693/8 := by
      norm_num +decide [pipeline_base_score, calculate_credit_score_component,
        calculate_financial_component, calculate_behavioral_component,
        calculate_demographic_component, calculate_external_component,
        band_lookup, resolved_credit_score, dti_of, monthly_income_of, is_recent_date,
        delinquency_rate, hocc, hst, hlk, customer_base, customer_with_score, app_base,
        w_credit_score, w_financial_stability, w_behavioral_patterns, w_demographic_factors,
        w_external_factors, List.filter_cons, List.filter_nil]
    have hhigh : ((pipeline_risk_factors (customer_with_score 300) app_base none []
        0).filter (fun rf => rf.severity == "HIGH")).length = 1 := by
      norm_num +decide [pipeline_risk_factors, calculate_credit_score_component,
        calculate_financial_component, calculate_behavioral_component,
        calculate_demographic_component, calculate_external_component,
        band_lookup, resolved_credit_score, dti_of, monthly_income_of, is_recent_date,
        delinquency_rate, hocc, hst, hlk, customer_base, customer_with_score, app_base,
        List.filter_cons, List.filter_nil, List.filter_append]
    have hcrit : ((pipeline_risk_factors (customer_with_score 300) app_base none []
        0).filter (fun rf => rf.severity == "CRITICAL")).length = 0 := by
      norm_num +decide [pipeline_risk_factors, calculate_credit_score_component,
        calculate_financial_component, calculate_behavioral_component,
        calculate_demographic_component, calculate_external_component,
        band_lookup, resolved_credit_score, dti_of, monthly_income_of, is_recent_date,
        delinquency_rate, hocc, hst, hlk, customer_base, customer_with_score, app_base,
        List.filter_cons, List.filter_nil, List.filter_append]
    have hft : is_first_time_customer (customer_with_score 300) = true := by decide
    have hai : (customer_with_score 300).personalInfo.annualIncome = 50000 := rfl
    show (pipeline_adjusted (customer_with_score 300) app_base none [] 0).1 = 7623/80
    unfold pipeline_adjusted
    rw [hbase]
    norm_num +decide [apply_risk_adjustments, hft, hai, hrl, hhigh, hcrit]
  rw [h299, h300]
  norm_num

/-- **C5 amended**: holding every other input fixed, for credit scores
`300 ≤ s1 < s2 ≤ 850` (the banded range that the data generator produces),
the overall risk score with score `s2` is at most the overall risk score
with score `s1` — decreasing the credit score within the banded range never
decreases the overall score.  Outside that range the band table falls back
to the default `(50, ×1.0)` and monotonicity fails. -/
theorem C5_amended (customer : CustomerData) (app : ApplicationData)
    (bureau : Option BureauData) (market : List MarketInsight) (now : ℤ)
    (s1 s2 : ℤ) (hs1 : 300 ≤ s1) (hs12 : s1 < s2) (hs2 : s2 ≤ 850) :
    (calculate_comprehensive_risk (set_credit_score customer bureau s2).1 app
        (set_credit_score customer bureau s2).2 market now).overall_risk_score ≤
    (calculate_comprehensive_risk (set_credit_score customer bureau s1).1 app
        (set_credit_score customer bureau s1).2 market now).overall_risk_score := by
  obtain ⟨hf1, hb1, hd1, he1⟩ := components_set_invariant customer app bureau market now s1
  obtain ⟨hf2, hb2, hd2, he2⟩ := components_set_invariant customer app bureau market now s2
  have hcc : (calculate_credit_score_component (set_credit_score customer bureau s2).1
      (set_credit_score customer bureau s2).2).1 ≤
      (calculate_credit_score_component (set_credit_score customer bureau s1).1
      (set_credit_score customer bureau s1).2).1 := by
    rw [credit_comp_fst, credit_comp_fst, resolved_set, resolved_set,
      (credit_extra_set customer bureau s1).1, (credit_extra_set customer bureau s2).1]
    obtain ⟨hb, hm⟩ := band_mono s1 s2 hs1 (le_of_lt hs12) hs2
    have he := credit_extra_nonneg bureau
    exact mul_le_mul (by linarith) hm (band_mult_nonneg s2)
      (by linarith [band_base_nonneg s1])
  have hcc0 : 0 ≤ (calculate_credit_score_component (set_credit_score customer bureau s2).1
      (set_credit_score customer bureau s2).2).1 := by
    rw [credit_comp_fst, resolved_set, (credit_extra_set customer bureau s2).1]
    exact mul_nonneg (add_nonneg (band_base_nonneg s2) (credit_extra_nonneg bureau))
      (band_mult_nonneg s2)
  show (pipeline_adjusted (set_credit_score customer bureau s2).1 app
      (set_credit_score customer bureau s2).2 market now).1 ≤
    (pipeline_adjusted (set_credit_score customer bureau s1).1 app
      (set_credit_score customer bureau s1).2 market now).1
  unfold pipeline_adjusted
  rw [apply_eq_spec, apply_eq_spec, hl_set, hl_set]
  apply spec_adjusted_mono
  · -- base monotone
    unfold pipeline_base_score
    rw [hf1, hb1, hd1, he1, hf2, hb2, hd2, he2]
    simp only [w_credit_score, w_financial_stability, w_behavioral_patterns,
      w_demographic_factors, w_external_factors]
    linarith [hcc]
  · -- base nonnegative
    unfold pipeline_base_score
    simp only [w_credit_score, w_financial_stability, w_behavioral_patterns,
      w_demographic_factors, w_external_factors]
    have h2 := (financial_component_bounds (set_credit_score customer bureau s2).1 app).1
    have h3 := (behavioral_component_bounds (set_credit_score customer bureau s2).1
      (set_credit_score customer bureau s2).2 now).1
    have h4 := (demographic_component_bounds (set_credit_score customer bureau s2).1).1
    have h5 := (external_component_bounds (set_credit_score customer bureau s2).1 market).1
    linarith [hcc0]
  · -- first-time flag monotone
    rw [ft_set, ft_set]
    simp only [Bool.or_eq_true, decide_eq_true_eq]
    intro h
    omega
  · -- CRITICAL counts equal
    unfold pipeline_risk_factors
    rw [hf1, hb1, hd1, he1, hf2, hb2, hd2, he2]
    simp only [List.filter_append, List.length_append, credit_crit_filter,
      List.length_nil]
  · -- HIGH count monotone
    unfold pipeline_risk_factors
    rw [hf1, hb1, hd1, he1, hf2, hb2, hd2, he2]
    simp only [List.filter_append, List.length_append, credit_high_count,
      resolved_set]
    rw [(credit_extra_set customer bureau s1).2, (credit_extra_set customer bureau s2).2]
    split_ifs <;> omega

/-- Witness for the amended C5 at scores 310 < 800 on a concrete context. -/
theorem C5_amended_witness :
    (calculate_comprehensive_risk (set_credit_score customer_base none 800).1 app_base
        (set_credit_score customer_base none 800).2 [] 0).overall_risk_score ≤
    (calculate_comprehensive_risk (set_credit_score customer_base none 310).1 app_base
        (set_credit_score customer_base none 310).2 [] 0).overall_risk_score :=
  C5_amended customer_base app_base none [] 0 310 800 (by decide) (by decide) (by decide)

end CreditGuard
